import Mathlib

set_option maxHeartbeats 16000000

/-!
Verification of the `santa01/math` linear-algebra library (Vec3/Vec4/Mat3/Mat4).

The C++ code computes with IEEE-754 `float`.  The development uses two models:

* namespace `Exact`: the arithmetic claims (identity laws, transpose,
  LU decomposition, inversion) are settled over an idealized exact scalar
  field, `ℚ` in place of `float`.  All loops of the source are tiny and
  bounded (3x3 / 4x4), and are unrolled here in exactly the source's
  iteration order; in-place mutation is modelled by explicit state passing
  (the returned value is the final state of the mutated object).
* namespace `Ieee`: the claims that are specifically about IEEE special
  values (NaN results of out-of-range access, 0/0 in `normalize`, the
  semantics of `operator==`) are settled over a behavioural scalar model
  `Fp` that carries finite values (idealized as exact rationals), signed
  infinities and NaN, with the IEEE propagation and comparison rules.
  Negative zero is not distinguished from `fin 0`.

Matrix/vector `get`/`set` with an out-of-range index is an assertion
failure in Mat3/Mat4/Vec4(.cpp); the `Exact` model gives those calls a
harmless default, which is immaterial because every embedded call site
uses literal in-range indices.  The Vec3 header's documented NaN / no-op
behaviour on bad indices is modelled faithfully in `Ieee`.
-/

namespace Exact

/-- `Math::Vec3` over the idealized exact scalar (fields are `vector[0..2]`). -/
structure Vec3 where
  x : ℚ
  y : ℚ
  z : ℚ
deriving DecidableEq

namespace Vec3

/-- Default constructor: all components zero. -/
def init : Vec3 := ⟨0, 0, 0⟩

/-- `Vec3::get(index)`: valid indices are `0..2` (out of range is a
precondition violation; the model returns `0` there, never exercised). -/
def get (v : Vec3) : Nat → ℚ
  | 0 => v.x
  | 1 => v.y
  | 2 => v.z
  | _ => 0

/-- `Vec3::set(index, value)`; out of range is a precondition violation
(the model leaves the vector unchanged there, never exercised). -/
def set (v : Vec3) : Nat → ℚ → Vec3
  | 0, value => { v with x := value }
  | 1, value => { v with y := value }
  | 2, value => { v with z := value }
  | _, _ => v

/-- `Vec3::operator+=` / binary `operator+` (per-component addition). -/
def add (a b : Vec3) : Vec3 :=
  ⟨a.x + b.x, a.y + b.y, a.z + b.z⟩

/-- `Vec3::operator-=` / binary `operator-` (per-component subtraction). -/
def sub (a b : Vec3) : Vec3 :=
  ⟨a.x - b.x, a.y - b.y, a.z - b.z⟩

/-- Unary `Vec3::operator-` (per-component sign flip). -/
def neg (a : Vec3) : Vec3 :=
  ⟨-a.x, -a.y, -a.z⟩

/-- `Vec3::operator==`: short-circuit conjunction of exact per-component
equality. -/
def beq (a b : Vec3) : Bool :=
  decide (a.x = b.x) && decide (a.y = b.y) && decide (a.z = b.z)

end Vec3

/-- `Math::Mat3` over the idealized exact scalar; field `mIJ` is
`matrix[I][J]` of the row-major `float matrix[3][3]`. -/
structure Mat3 where
  m00 : ℚ
  m01 : ℚ
  m02 : ℚ
  m10 : ℚ
  m11 : ℚ
  m12 : ℚ
  m20 : ℚ
  m21 : ℚ
  m22 : ℚ
deriving DecidableEq

namespace Mat3

/-- `Mat3::get(row, column)`; valid indices are `0..2` (out of range is a
precondition violation; the model returns `0` there, never exercised). -/
def get (m : Mat3) : Nat → Nat → ℚ
  | 0, 0 => m.m00
  | 0, 1 => m.m01
  | 0, 2 => m.m02
  | 1, 0 => m.m10
  | 1, 1 => m.m11
  | 1, 2 => m.m12
  | 2, 0 => m.m20
  | 2, 1 => m.m21
  | 2, 2 => m.m22
  | _, _ => 0

/-- `Mat3::set(row, column, value)`; out of range is a precondition
violation (the model leaves the matrix unchanged there, never exercised). -/
def set (m : Mat3) : Nat → Nat → ℚ → Mat3
  | 0, 0, value => { m with m00 := value }
  | 0, 1, value => { m with m01 := value }
  | 0, 2, value => { m with m02 := value }
  | 1, 0, value => { m with m10 := value }
  | 1, 1, value => { m with m11 := value }
  | 1, 2, value => { m with m12 := value }
  | 2, 0, value => { m with m20 := value }
  | 2, 1, value => { m with m21 := value }
  | 2, 2, value => { m with m22 := value }
  | _, _, _ => m

/-- `Mat3::Mat3()`: zero every entry, then set the diagonal to 1
(the identity matrix). -/
def init : Mat3 :=
  let m : Mat3 := ⟨0, 0, 0, 0, 0, 0, 0, 0, 0⟩
  let m := m.set 0 0 1
  let m := m.set 1 1 1
  let m := m.set 2 2 1
  m

/-- `Mat3::operator*(Mat3)`: `result[i][j] = Σ_k this[i][k] * other[k][j]`,
loops over `i` then `j` unrolled (each result entry is written once). -/
def mul (a b : Mat3) : Mat3 :=
  let result := init
  let result := result.set 0 0 (a.get 0 0 * b.get 0 0 + a.get 0 1 * b.get 1 0 + a.get 0 2 * b.get 2 0)
  let result := result.set 0 1 (a.get 0 0 * b.get 0 1 + a.get 0 1 * b.get 1 1 + a.get 0 2 * b.get 2 1)
  let result := result.set 0 2 (a.get 0 0 * b.get 0 2 + a.get 0 1 * b.get 1 2 + a.get 0 2 * b.get 2 2)
  let result := result.set 1 0 (a.get 1 0 * b.get 0 0 + a.get 1 1 * b.get 1 0 + a.get 1 2 * b.get 2 0)
  let result := result.set 1 1 (a.get 1 0 * b.get 0 1 + a.get 1 1 * b.get 1 1 + a.get 1 2 * b.get 2 1)
  let result := result.set 1 2 (a.get 1 0 * b.get 0 2 + a.get 1 1 * b.get 1 2 + a.get 1 2 * b.get 2 2)
  let result := result.set 2 0 (a.get 2 0 * b.get 0 0 + a.get 2 1 * b.get 1 0 + a.get 2 2 * b.get 2 0)
  let result := result.set 2 1 (a.get 2 0 * b.get 0 1 + a.get 2 1 * b.get 1 1 + a.get 2 2 * b.get 2 1)
  let result := result.set 2 2 (a.get 2 0 * b.get 0 2 + a.get 2 1 * b.get 1 2 + a.get 2 2 * b.get 2 2)
  result

/-- `Mat3::operator*(Vec3)`: `result[i] = Σ_k this[i][k] * v[k]`. -/
def mulVec (m : Mat3) (vector : Vec3) : Vec3 :=
  let result := Vec3.init
  let result := result.set 0 (m.get 0 0 * vector.get 0 + m.get 0 1 * vector.get 1 + m.get 0 2 * vector.get 2)
  let result := result.set 1 (m.get 1 0 * vector.get 0 + m.get 1 1 * vector.get 1 + m.get 1 2 * vector.get 2)
  let result := result.set 2 (m.get 2 0 * vector.get 0 + m.get 2 1 * vector.get 1 + m.get 2 2 * vector.get 2)
  result

/-- `Mat3::operator+` (per-entry addition). -/
def add (a b : Mat3) : Mat3 :=
  ⟨a.m00 + b.m00, a.m01 + b.m01, a.m02 + b.m02,
   a.m10 + b.m10, a.m11 + b.m11, a.m12 + b.m12,
   a.m20 + b.m20, a.m21 + b.m21, a.m22 + b.m22⟩

/-- `Mat3::operator-` (per-entry subtraction). -/
def sub (a b : Mat3) : Mat3 :=
  ⟨a.m00 - b.m00, a.m01 - b.m01, a.m02 - b.m02,
   a.m10 - b.m10, a.m11 - b.m11, a.m12 - b.m12,
   a.m20 - b.m20, a.m21 - b.m21, a.m22 - b.m22⟩

/-- `Mat3::operator==`: short-circuit conjunction of exact per-entry
equality, rows scanned in order. -/
def beq (a b : Mat3) : Bool :=
  decide (a.m00 = b.m00) && decide (a.m01 = b.m01) && decide (a.m02 = b.m02) &&
  decide (a.m10 = b.m10) && decide (a.m11 = b.m11) && decide (a.m12 = b.m12) &&
  decide (a.m20 = b.m20) && decide (a.m21 = b.m21) && decide (a.m22 = b.m22)

/-- `Mat3::transpose()`: in-place `std::swap(matrix[j][i], matrix[i][j])`
for `i < j` (swaps the pairs (1,0)-(0,1), (2,0)-(0,2), (2,1)-(1,2);
the swapped pairs are disjoint, written here as one simultaneous update).
Returns the mutated receiver. -/
def transpose (m : Mat3) : Mat3 :=
  ⟨m.m00, m.m10, m.m20,
   m.m01, m.m11, m.m21,
   m.m02, m.m12, m.m22⟩

/-- `Mat3::decompose(lower, upper)`: Doolittle LU decomposition written
into the caller-supplied `lower` and `upper` (returned here as a pair,
since the C++ writes through reference parameters).  The loops of the
source are unrolled in exactly the source's iteration order. -/
def decompose (a : Mat3) (lower₀ upper₀ : Mat3) : Mat3 × Mat3 :=
  -- init loop: for i, for j in i..2: lower[i][j] = (i==j ? 1 : 0); upper[i][j] = 0
  let lower := lower₀.set 0 0 1
  let upper := upper₀.set 0 0 0
  let lower := lower.set 0 1 0
  let upper := upper.set 0 1 0
  let lower := lower.set 0 2 0
  let upper := upper.set 0 2 0
  let lower := lower.set 1 1 1
  let upper := upper.set 1 1 0
  let lower := lower.set 1 2 0
  let upper := upper.set 1 2 0
  let lower := lower.set 2 2 1
  let upper := upper.set 2 2 0
  -- main loop, i = 0
  --   upper row 0: j = 0, 1, 2 (k-loop empty)
  let upper := upper.set 0 0 (a.get 0 0)
  let upper := upper.set 0 0 (upper.get 0 0 / lower.get 0 0)
  let upper := upper.set 0 1 (a.get 0 1)
  let upper := upper.set 0 1 (upper.get 0 1 / lower.get 0 0)
  let upper := upper.set 0 2 (a.get 0 2)
  let upper := upper.set 0 2 (upper.get 0 2 / lower.get 0 0)
  --   lower column 0: j = 1, 2 (k-loop empty)
  let lower := lower.set 1 0 (a.get 1 0)
  let lower := lower.set 1 0 (lower.get 1 0 / upper.get 0 0)
  let lower := lower.set 2 0 (a.get 2 0)
  let lower := lower.set 2 0 (lower.get 2 0 / upper.get 0 0)
  -- main loop, i = 1
  --   upper row 1: j = 1, 2 (k = 0)
  let upper := upper.set 1 1 (a.get 1 1)
  let upper := upper.set 1 1 (upper.get 1 1 - lower.get 1 0 * upper.get 0 1)
  let upper := upper.set 1 1 (upper.get 1 1 / lower.get 1 1)
  let upper := upper.set 1 2 (a.get 1 2)
  let upper := upper.set 1 2 (upper.get 1 2 - lower.get 1 0 * upper.get 0 2)
  let upper := upper.set 1 2 (upper.get 1 2 / lower.get 1 1)
  --   lower column 1: j = 2 (k = 0)
  let lower := lower.set 2 1 (a.get 2 1)
  let lower := lower.set 2 1 (lower.get 2 1 - lower.get 2 0 * upper.get 0 1)
  let lower := lower.set 2 1 (lower.get 2 1 / upper.get 1 1)
  -- main loop, i = 2
  --   upper row 2: j = 2 (k = 0, 1)
  let upper := upper.set 2 2 (a.get 2 2)
  let upper := upper.set 2 2 (upper.get 2 2 - lower.get 2 0 * upper.get 0 2)
  let upper := upper.set 2 2 (upper.get 2 2 - lower.get 2 1 * upper.get 1 2)
  let upper := upper.set 2 2 (upper.get 2 2 / lower.get 2 2)
  (lower, upper)

/-- `Mat3::solveL(absolute)`: forward substitution,
`x[i] = (b[i] - Σ_{j<i} this[i][j]*x[j]) / this[i][i]` for `i = 0,1,2`. -/
def solveL (m : Mat3) (absolute : Vec3) : Vec3 :=
  let solution := Vec3.init
  let solution := solution.set 0 (absolute.get 0)
  let solution := solution.set 0 (solution.get 0 / m.get 0 0)
  let solution := solution.set 1 (absolute.get 1)
  let solution := solution.set 1 (solution.get 1 - m.get 1 0 * solution.get 0)
  let solution := solution.set 1 (solution.get 1 / m.get 1 1)
  let solution := solution.set 2 (absolute.get 2)
  let solution := solution.set 2 (solution.get 2 - m.get 2 0 * solution.get 0)
  let solution := solution.set 2 (solution.get 2 - m.get 2 1 * solution.get 1)
  let solution := solution.set 2 (solution.get 2 / m.get 2 2)
  solution

/-- `Mat3::solveU(absolute)`: backward substitution,
`x[i] = (b[i] - Σ_{j>i} this[i][j]*x[j]) / this[i][i]` for `i = 2,1,0`
(the inner loop scans `j` downward). -/
def solveU (m : Mat3) (absolute : Vec3) : Vec3 :=
  let solution := Vec3.init
  let solution := solution.set 2 (absolute.get 2)
  let solution := solution.set 2 (solution.get 2 / m.get 2 2)
  let solution := solution.set 1 (absolute.get 1)
  let solution := solution.set 1 (solution.get 1 - m.get 1 2 * solution.get 2)
  let solution := solution.set 1 (solution.get 1 / m.get 1 1)
  let solution := solution.set 0 (absolute.get 0)
  let solution := solution.set 0 (solution.get 0 - m.get 0 2 * solution.get 2)
  let solution := solution.set 0 (solution.get 0 - m.get 0 1 * solution.get 1)
  let solution := solution.set 0 (solution.get 0 / m.get 0 0)
  solution

/-- `Mat3::invert()`: decompose into default-constructed (identity)
`lower`/`upper`, zero the receiver, then for each basis column solve
`L z = e_i`, `U x = z` and write `x` into column `i`.  Returns the
mutated receiver. -/
def invert (m : Mat3) : Mat3 :=
  let lower := init
  let upper := init
  let lu := m.decompose lower upper
  let lower := lu.1
  let upper := lu.2
  let result : Mat3 := ⟨0, 0, 0, 0, 0, 0, 0, 0, 0⟩
  -- column i = 0, basis vector (1,0,0)
  let z := lower.solveL ⟨1, 0, 0⟩
  let x := upper.solveU z
  let result := result.set 0 0 (x.get 0)
  let result := result.set 1 0 (x.get 1)
  let result := result.set 2 0 (x.get 2)
  -- column i = 1, basis vector (0,1,0)
  let z := lower.solveL ⟨0, 1, 0⟩
  let x := upper.solveU z
  let result := result.set 0 1 (x.get 0)
  let result := result.set 1 1 (x.get 1)
  let result := result.set 2 1 (x.get 2)
  -- column i = 2, basis vector (0,0,1)
  let z := lower.solveL ⟨0, 0, 1⟩
  let x := upper.solveU z
  let result := result.set 0 2 (x.get 0)
  let result := result.set 1 2 (x.get 1)
  let result := result.set 2 2 (x.get 2)
  result

/-- "Decomposable / well-conditioned" for the pivot-free Doolittle code:
all three pivots `U[i][i]` produced by `decompose` (as `invert` calls it,
with identity-initialized outputs) are nonzero. -/
def pivots (a : Mat3) : Prop :=
  (a.decompose init init).2.m00 ≠ 0 ∧
  (a.decompose init init).2.m11 ≠ 0 ∧
  (a.decompose init init).2.m22 ≠ 0

instance (a : Mat3) : Decidable (pivots a) := by
  unfold pivots; infer_instance

/-- The value of `Mat3` as a Mathlib matrix, used to transfer monoid
reasoning (associativity, right-inverse implies left-inverse). -/
def toMatrix (m : Mat3) : Matrix (Fin 3) (Fin 3) ℚ :=
  Matrix.of ![![m.m00, m.m01, m.m02], ![m.m10, m.m11, m.m12], ![m.m20, m.m21, m.m22]]

end Mat3

/-- `Math::Vec4` over the idealized exact scalar (fields are `vector[0..3]`). -/
structure Vec4 where
  x : ℚ
  y : ℚ
  z : ℚ
  w : ℚ
deriving DecidableEq

namespace Vec4

/-- Default constructor: `(0, 0, 0, 1)` (a homogeneous point at the origin). -/
def init : Vec4 := ⟨0, 0, 0, 1⟩

/-- `Vec4::get(index)`; valid indices are `0..3` (out of range asserts;
the model returns `0` there, never exercised by embedded call sites). -/
def get (v : Vec4) : Nat → ℚ
  | 0 => v.x
  | 1 => v.y
  | 2 => v.z
  | 3 => v.w
  | _ => 0

/-- `Vec4::set(index, value)`; out of range asserts (the model leaves the
vector unchanged there, never exercised by embedded call sites). -/
def set (v : Vec4) : Nat → ℚ → Vec4
  | 0, value => { v with x := value }
  | 1, value => { v with y := value }
  | 2, value => { v with z := value }
  | 3, value => { v with w := value }
  | _, _ => v

/-- `Vec4::operator+=` / binary `operator+` (per-component addition). -/
def add (a b : Vec4) : Vec4 :=
  ⟨a.x + b.x, a.y + b.y, a.z + b.z, a.w + b.w⟩

/-- Unary `Vec4::operator-` (per-component sign flip). -/
def neg (a : Vec4) : Vec4 :=
  ⟨-a.x, -a.y, -a.z, -a.w⟩

/-- `Vec4::operator==`: short-circuit conjunction of exact per-component
equality. -/
def beq (a b : Vec4) : Bool :=
  decide (a.x = b.x) && decide (a.y = b.y) && decide (a.z = b.z) && decide (a.w = b.w)

end Vec4

/-- `Math::Mat4` over the idealized exact scalar; field `mIJ` is
`matrix[I][J]` of the row-major `float matrix[4][4]`. -/
structure Mat4 where
  m00 : ℚ
  m01 : ℚ
  m02 : ℚ
  m03 : ℚ
  m10 : ℚ
  m11 : ℚ
  m12 : ℚ
  m13 : ℚ
  m20 : ℚ
  m21 : ℚ
  m22 : ℚ
  m23 : ℚ
  m30 : ℚ
  m31 : ℚ
  m32 : ℚ
  m33 : ℚ
deriving DecidableEq

namespace Mat4

/-- `Mat4::get(row, column)`; valid indices are `0..3` (out of range is a
precondition violation; the model returns `0` there, never exercised). -/
def get (m : Mat4) : Nat → Nat → ℚ
  | 0, 0 => m.m00
  | 0, 1 => m.m01
  | 0, 2 => m.m02
  | 0, 3 => m.m03
  | 1, 0 => m.m10
  | 1, 1 => m.m11
  | 1, 2 => m.m12
  | 1, 3 => m.m13
  | 2, 0 => m.m20
  | 2, 1 => m.m21
  | 2, 2 => m.m22
  | 2, 3 => m.m23
  | 3, 0 => m.m30
  | 3, 1 => m.m31
  | 3, 2 => m.m32
  | 3, 3 => m.m33
  | _, _ => 0

/-- `Mat4::set(row, column, value)`; out of range is a precondition
violation (the model leaves the matrix unchanged there, never exercised). -/
def set (m : Mat4) : Nat → Nat → ℚ → Mat4
  | 0, 0, value => { m with m00 := value }
  | 0, 1, value => { m with m01 := value }
  | 0, 2, value => { m with m02 := value }
  | 0, 3, value => { m with m03 := value }
  | 1, 0, value => { m with m10 := value }
  | 1, 1, value => { m with m11 := value }
  | 1, 2, value => { m with m12 := value }
  | 1, 3, value => { m with m13 := value }
  | 2, 0, value => { m with m20 := value }
  | 2, 1, value => { m with m21 := value }
  | 2, 2, value => { m with m22 := value }
  | 2, 3, value => { m with m23 := value }
  | 3, 0, value => { m with m30 := value }
  | 3, 1, value => { m with m31 := value }
  | 3, 2, value => { m with m32 := value }
  | 3, 3, value => { m with m33 := value }
  | _, _, _ => m

/-- `Mat4::Mat4()`: zero every entry, then set the diagonal to 1
(the identity matrix). -/
def init : Mat4 :=
  let m : Mat4 := ⟨0, 0, 0, 0, 0, 0, 0, 0, 0, 0, 0, 0, 0, 0, 0, 0⟩
  let m := m.set 0 0 1
  let m := m.set 1 1 1
  let m := m.set 2 2 1
  let m := m.set 3 3 1
  m

/-- `Mat4::operator*(Mat4)`: `result[i][j] = Σ_k this[i][k] * other[k][j]`,
loops over `i` then `j` unrolled (each result entry is written once). -/
def mul (a b : Mat4) : Mat4 :=
  let result := init
  let result := result.set 0 0 (a.get 0 0 * b.get 0 0 + a.get 0 1 * b.get 1 0 + a.get 0 2 * b.get 2 0 + a.get 0 3 * b.get 3 0)
  let result := result.set 0 1 (a.get 0 0 * b.get 0 1 + a.get 0 1 * b.get 1 1 + a.get 0 2 * b.get 2 1 + a.get 0 3 * b.get 3 1)
  let result := result.set 0 2 (a.get 0 0 * b.get 0 2 + a.get 0 1 * b.get 1 2 + a.get 0 2 * b.get 2 2 + a.get 0 3 * b.get 3 2)
  let result := result.set 0 3 (a.get 0 0 * b.get 0 3 + a.get 0 1 * b.get 1 3 + a.get 0 2 * b.get 2 3 + a.get 0 3 * b.get 3 3)
  let result := result.set 1 0 (a.get 1 0 * b.get 0 0 + a.get 1 1 * b.get 1 0 + a.get 1 2 * b.get 2 0 + a.get 1 3 * b.get 3 0)
  let result := result.set 1 1 (a.get 1 0 * b.get 0 1 + a.get 1 1 * b.get 1 1 + a.get 1 2 * b.get 2 1 + a.get 1 3 * b.get 3 1)
  let result := result.set 1 2 (a.get 1 0 * b.get 0 2 + a.get 1 1 * b.get 1 2 + a.get 1 2 * b.get 2 2 + a.get 1 3 * b.get 3 2)
  let result := result.set 1 3 (a.get 1 0 * b.get 0 3 + a.get 1 1 * b.get 1 3 + a.get 1 2 * b.get 2 3 + a.get 1 3 * b.get 3 3)
  let result := result.set 2 0 (a.get 2 0 * b.get 0 0 + a.get 2 1 * b.get 1 0 + a.get 2 2 * b.get 2 0 + a.get 2 3 * b.get 3 0)
  let result := result.set 2 1 (a.get 2 0 * b.get 0 1 + a.get 2 1 * b.get 1 1 + a.get 2 2 * b.get 2 1 + a.get 2 3 * b.get 3 1)
  let result := result.set 2 2 (a.get 2 0 * b.get 0 2 + a.get 2 1 * b.get 1 2 + a.get 2 2 * b.get 2 2 + a.get 2 3 * b.get 3 2)
  let result := result.set 2 3 (a.get 2 0 * b.get 0 3 + a.get 2 1 * b.get 1 3 + a.get 2 2 * b.get 2 3 + a.get 2 3 * b.get 3 3)
  let result := result.set 3 0 (a.get 3 0 * b.get 0 0 + a.get 3 1 * b.get 1 0 + a.get 3 2 * b.get 2 0 + a.get 3 3 * b.get 3 0)
  let result := result.set 3 1 (a.get 3 0 * b.get 0 1 + a.get 3 1 * b.get 1 1 + a.get 3 2 * b.get 2 1 + a.get 3 3 * b.get 3 1)
  let result := result.set 3 2 (a.get 3 0 * b.get 0 2 + a.get 3 1 * b.get 1 2 + a.get 3 2 * b.get 2 2 + a.get 3 3 * b.get 3 2)
  let result := result.set 3 3 (a.get 3 0 * b.get 0 3 + a.get 3 1 * b.get 1 3 + a.get 3 2 * b.get 2 3 + a.get 3 3 * b.get 3 3)
  result

/-- `Mat4::operator*(Vec4)`: `result[i] = Σ_k this[i][k] * v[k]`. -/
def mulVec (m : Mat4) (vector : Vec4) : Vec4 :=
  let result := Vec4.init
  let result := result.set 0 (m.get 0 0 * vector.get 0 + m.get 0 1 * vector.get 1 + m.get 0 2 * vector.get 2 + m.get 0 3 * vector.get 3)
  let result := result.set 1 (m.get 1 0 * vector.get 0 + m.get 1 1 * vector.get 1 + m.get 1 2 * vector.get 2 + m.get 1 3 * vector.get 3)
  let result := result.set 2 (m.get 2 0 * vector.get 0 + m.get 2 1 * vector.get 1 + m.get 2 2 * vector.get 2 + m.get 2 3 * vector.get 3)
  let result := result.set 3 (m.get 3 0 * vector.get 0 + m.get 3 1 * vector.get 1 + m.get 3 2 * vector.get 2 + m.get 3 3 * vector.get 3)
  result

/-- `Mat4::operator-` (per-entry subtraction). -/
def sub (a b : Mat4) : Mat4 :=
  ⟨a.m00 - b.m00, a.m01 - b.m01, a.m02 - b.m02, a.m03 - b.m03,
   a.m10 - b.m10, a.m11 - b.m11, a.m12 - b.m12, a.m13 - b.m13,
   a.m20 - b.m20, a.m21 - b.m21, a.m22 - b.m22, a.m23 - b.m23,
   a.m30 - b.m30, a.m31 - b.m31, a.m32 - b.m32, a.m33 - b.m33⟩

/-- `Mat4::operator==`: short-circuit conjunction of exact per-entry
equality, rows scanned in order. -/
def beq (a b : Mat4) : Bool :=
  decide (a.m00 = b.m00) && decide (a.m01 = b.m01) && decide (a.m02 = b.m02) && decide (a.m03 = b.m03) &&
  decide (a.m10 = b.m10) && decide (a.m11 = b.m11) && decide (a.m12 = b.m12) && decide (a.m13 = b.m13) &&
  decide (a.m20 = b.m20) && decide (a.m21 = b.m21) && decide (a.m22 = b.m22) && decide (a.m23 = b.m23) &&
  decide (a.m30 = b.m30) && decide (a.m31 = b.m31) && decide (a.m32 = b.m32) && decide (a.m33 = b.m33)

/-- `Mat4::transpose()`: in-place `std::swap(matrix[j][i], matrix[i][j])`
for `i < j` (the six swapped pairs are disjoint, written here as one
simultaneous update).  Returns the mutated receiver. -/
def transpose (m : Mat4) : Mat4 :=
  ⟨m.m00, m.m10, m.m20, m.m30,
   m.m01, m.m11, m.m21, m.m31,
   m.m02, m.m12, m.m22, m.m32,
   m.m03, m.m13, m.m23, m.m33⟩

/-- `Mat4::decompose(lower, upper)`: Doolittle LU decomposition written
into the caller-supplied `lower` and `upper` (returned as a pair).  The
loops of the source are unrolled in exactly the source's iteration order. -/
def decompose (a : Mat4) (lower₀ upper₀ : Mat4) : Mat4 × Mat4 :=
  -- init loop: for i, for j in i..3: lower[i][j] = (i==j ? 1 : 0); upper[i][j] = 0
  let lower := lower₀.set 0 0 1
  let upper := upper₀.set 0 0 0
  let lower := lower.set 0 1 0
  let upper := upper.set 0 1 0
  let lower := lower.set 0 2 0
  let upper := upper.set 0 2 0
  let lower := lower.set 0 3 0
  let upper := upper.set 0 3 0
  let lower := lower.set 1 1 1
  let upper := upper.set 1 1 0
  let lower := lower.set 1 2 0
  let upper := upper.set 1 2 0
  let lower := lower.set 1 3 0
  let upper := upper.set 1 3 0
  let lower := lower.set 2 2 1
  let upper := upper.set 2 2 0
  let lower := lower.set 2 3 0
  let upper := upper.set 2 3 0
  let lower := lower.set 3 3 1
  let upper := upper.set 3 3 0
  -- main loop, i = 0: upper row 0 (k-loop empty), then lower column 0
  let upper := upper.set 0 0 (a.get 0 0)
  let upper := upper.set 0 0 (upper.get 0 0 / lower.get 0 0)
  let upper := upper.set 0 1 (a.get 0 1)
  let upper := upper.set 0 1 (upper.get 0 1 / lower.get 0 0)
  let upper := upper.set 0 2 (a.get 0 2)
  let upper := upper.set 0 2 (upper.get 0 2 / lower.get 0 0)
  let upper := upper.set 0 3 (a.get 0 3)
  let upper := upper.set 0 3 (upper.get 0 3 / lower.get 0 0)
  let lower := lower.set 1 0 (a.get 1 0)
  let lower := lower.set 1 0 (lower.get 1 0 / upper.get 0 0)
  let lower := lower.set 2 0 (a.get 2 0)
  let lower := lower.set 2 0 (lower.get 2 0 / upper.get 0 0)
  let lower := lower.set 3 0 (a.get 3 0)
  let lower := lower.set 3 0 (lower.get 3 0 / upper.get 0 0)
  -- main loop, i = 1: upper row 1 (k = 0), then lower column 1 (k = 0)
  let upper := upper.set 1 1 (a.get 1 1)
  let upper := upper.set 1 1 (upper.get 1 1 - lower.get 1 0 * upper.get 0 1)
  let upper := upper.set 1 1 (upper.get 1 1 / lower.get 1 1)
  let upper := upper.set 1 2 (a.get 1 2)
  let upper := upper.set 1 2 (upper.get 1 2 - lower.get 1 0 * upper.get 0 2)
  let upper := upper.set 1 2 (upper.get 1 2 / lower.get 1 1)
  let upper := upper.set 1 3 (a.get 1 3)
  let upper := upper.set 1 3 (upper.get 1 3 - lower.get 1 0 * upper.get 0 3)
  let upper := upper.set 1 3 (upper.get 1 3 / lower.get 1 1)
  let lower := lower.set 2 1 (a.get 2 1)
  let lower := lower.set 2 1 (lower.get 2 1 - lower.get 2 0 * upper.get 0 1)
  let lower := lower.set 2 1 (lower.get 2 1 / upper.get 1 1)
  let lower := lower.set 3 1 (a.get 3 1)
  let lower := lower.set 3 1 (lower.get 3 1 - lower.get 3 0 * upper.get 0 1)
  let lower := lower.set 3 1 (lower.get 3 1 / upper.get 1 1)
  -- main loop, i = 2: upper row 2 (k = 0, 1), then lower column 2 (k = 0, 1)
  let upper := upper.set 2 2 (a.get 2 2)
  let upper := upper.set 2 2 (upper.get 2 2 - lower.get 2 0 * upper.get 0 2)
  let upper := upper.set 2 2 (upper.get 2 2 - lower.get 2 1 * upper.get 1 2)
  let upper := upper.set 2 2 (upper.get 2 2 / lower.get 2 2)
  let upper := upper.set 2 3 (a.get 2 3)
  let upper := upper.set 2 3 (upper.get 2 3 - lower.get 2 0 * upper.get 0 3)
  let upper := upper.set 2 3 (upper.get 2 3 - lower.get 2 1 * upper.get 1 3)
  let upper := upper.set 2 3 (upper.get 2 3 / lower.get 2 2)
  let lower := lower.set 3 2 (a.get 3 2)
  let lower := lower.set 3 2 (lower.get 3 2 - lower.get 3 0 * upper.get 0 2)
  let lower := lower.set 3 2 (lower.get 3 2 - lower.get 3 1 * upper.get 1 2)
  let lower := lower.set 3 2 (lower.get 3 2 / upper.get 2 2)
  -- main loop, i = 3: upper row 3 (k = 0, 1, 2)
  let upper := upper.set 3 3 (a.get 3 3)
  let upper := upper.set 3 3 (upper.get 3 3 - lower.get 3 0 * upper.get 0 3)
  let upper := upper.set 3 3 (upper.get 3 3 - lower.get 3 1 * upper.get 1 3)
  let upper := upper.set 3 3 (upper.get 3 3 - lower.get 3 2 * upper.get 2 3)
  let upper := upper.set 3 3 (upper.get 3 3 / lower.get 3 3)
  (lower, upper)

/-- `Mat4::solveL(absolute)`: forward substitution for `i = 0,1,2,3`. -/
def solveL (m : Mat4) (absolute : Vec4) : Vec4 :=
  let solution := Vec4.init
  let solution := solution.set 0 (absolute.get 0)
  let solution := solution.set 0 (solution.get 0 / m.get 0 0)
  let solution := solution.set 1 (absolute.get 1)
  let solution := solution.set 1 (solution.get 1 - m.get 1 0 * solution.get 0)
  let solution := solution.set 1 (solution.get 1 / m.get 1 1)
  let solution := solution.set 2 (absolute.get 2)
  let solution := solution.set 2 (solution.get 2 - m.get 2 0 * solution.get 0)
  let solution := solution.set 2 (solution.get 2 - m.get 2 1 * solution.get 1)
  let solution := solution.set 2 (solution.get 2 / m.get 2 2)
  let solution := solution.set 3 (absolute.get 3)
  let solution := solution.set 3 (solution.get 3 - m.get 3 0 * solution.get 0)
  let solution := solution.set 3 (solution.get 3 - m.get 3 1 * solution.get 1)
  let solution := solution.set 3 (solution.get 3 - m.get 3 2 * solution.get 2)
  let solution := solution.set 3 (solution.get 3 / m.get 3 3)
  solution

/-- `Mat4::solveU(absolute)`: backward substitution for `i = 3,2,1,0`
(the inner loop scans `j` downward). -/
def solveU (m : Mat4) (absolute : Vec4) : Vec4 :=
  let solution := Vec4.init
  let solution := solution.set 3 (absolute.get 3)
  let solution := solution.set 3 (solution.get 3 / m.get 3 3)
  let solution := solution.set 2 (absolute.get 2)
  let solution := solution.set 2 (solution.get 2 - m.get 2 3 * solution.get 3)
  let solution := solution.set 2 (solution.get 2 / m.get 2 2)
  let solution := solution.set 1 (absolute.get 1)
  let solution := solution.set 1 (solution.get 1 - m.get 1 3 * solution.get 3)
  let solution := solution.set 1 (solution.get 1 - m.get 1 2 * solution.get 2)
  let solution := solution.set 1 (solution.get 1 / m.get 1 1)
  let solution := solution.set 0 (absolute.get 0)
  let solution := solution.set 0 (solution.get 0 - m.get 0 3 * solution.get 3)
  let solution := solution.set 0 (solution.get 0 - m.get 0 2 * solution.get 2)
  let solution := solution.set 0 (solution.get 0 - m.get 0 1 * solution.get 1)
  let solution := solution.set 0 (solution.get 0 / m.get 0 0)
  solution

/-- `Mat4::invert()`: decompose into default-constructed (identity)
`lower`/`upper`, zero the receiver, then for each basis column solve
`L z = e_i`, `U x = z` and write `x` into column `i`. -/
def invert (m : Mat4) : Mat4 :=
  let lower := init
  let upper := init
  let lu := m.decompose lower upper
  let lower := lu.1
  let upper := lu.2
  let result : Mat4 := ⟨0, 0, 0, 0, 0, 0, 0, 0, 0, 0, 0, 0, 0, 0, 0, 0⟩
  -- column i = 0, basis vector (1,0,0,0)
  let z := lower.solveL ⟨1, 0, 0, 0⟩
  let x := upper.solveU z
  let result := result.set 0 0 (x.get 0)
  let result := result.set 1 0 (x.get 1)
  let result := result.set 2 0 (x.get 2)
  let result := result.set 3 0 (x.get 3)
  -- column i = 1, basis vector (0,1,0,0)
  let z := lower.solveL ⟨0, 1, 0, 0⟩
  let x := upper.solveU z
  let result := result.set 0 1 (x.get 0)
  let result := result.set 1 1 (x.get 1)
  let result := result.set 2 1 (x.get 2)
  let result := result.set 3 1 (x.get 3)
  -- column i = 2, basis vector (0,0,1,0)
  let z := lower.solveL ⟨0, 0, 1, 0⟩
  let x := upper.solveU z
  let result := result.set 0 2 (x.get 0)
  let result := result.set 1 2 (x.get 1)
  let result := result.set 2 2 (x.get 2)
  let result := result.set 3 2 (x.get 3)
  -- column i = 3, basis vector (0,0,0,1)
  let z := lower.solveL ⟨0, 0, 0, 1⟩
  let x := upper.solveU z
  let result := result.set 0 3 (x.get 0)
  let result := result.set 1 3 (x.get 1)
  let result := result.set 2 3 (x.get 2)
  let result := result.set 3 3 (x.get 3)
  result

/-- "Decomposable / well-conditioned" for the pivot-free Doolittle code:
all four pivots `U[i][i]` produced by `decompose` (as `invert` calls it)
are nonzero. -/
def pivots (a : Mat4) : Prop :=
  (a.decompose init init).2.m00 ≠ 0 ∧
  (a.decompose init init).2.m11 ≠ 0 ∧
  (a.decompose init init).2.m22 ≠ 0 ∧
  (a.decompose init init).2.m33 ≠ 0

instance (a : Mat4) : Decidable (pivots a) := by
  unfold pivots; infer_instance

/-- The value of `Mat4` as a Mathlib matrix, used to transfer monoid
reasoning (associativity, right-inverse implies left-inverse). -/
def toMatrix (m : Mat4) : Matrix (Fin 4) (Fin 4) ℚ :=
  Matrix.of ![![m.m00, m.m01, m.m02, m.m03], ![m.m10, m.m11, m.m12, m.m13],
              ![m.m20, m.m21, m.m22, m.m23], ![m.m30, m.m31, m.m32, m.m33]]

end Mat4

end Exact

namespace Spec

open Exact

/-- The Doolittle recurrences exactly as the spec's pseudocode states them
for `n = 3` (this definition follows the spec's words, for comparison with
the code's `Mat3.decompose`): column by column in increasing `i`, for
`j ≥ i` set `U[i][j] = A[i][j] - Σ_{k<i} L[i][k]*U[k][j]` then divide by
`L[i][i]`; for `j > i` set `L[j][i] = (A[j][i] - Σ_{k<i} L[j][k]*U[k][i])
divided by U[i][i]`; `L`'s diagonal is fixed at 1 and its above-diagonal
entries are 0.  The sums `Σ_{k<i}` are written out (empty for `i = 0`). -/
def doolittle3 (a : Mat3) : Mat3 × Mat3 :=
  -- i = 0
  let l00 : ℚ := 1
  let u00 := a.m00 / l00
  let u01 := a.m01 / l00
  let u02 := a.m02 / l00
  let l10 := a.m10 / u00
  let l20 := a.m20 / u00
  -- i = 1
  let l11 : ℚ := 1
  let u11 := (a.m11 - l10 * u01) / l11
  let u12 := (a.m12 - l10 * u02) / l11
  let l21 := (a.m21 - l20 * u01) / u11
  -- i = 2
  let l22 : ℚ := 1
  let u22 := (a.m22 - (l20 * u02 + l21 * u12)) / l22
  (⟨l00, 0, 0, l10, l11, 0, l20, l21, l22⟩,
   ⟨u00, u01, u02, 0, u11, u12, 0, 0, u22⟩)

/-- The Doolittle recurrences exactly as the spec's pseudocode states them
for `n = 4` (this definition follows the spec's words, for comparison with
the code's `Mat4.decompose`); see `Spec.doolittle3`. -/
def doolittle4 (a : Mat4) : Mat4 × Mat4 :=
  -- i = 0
  let l00 : ℚ := 1
  let u00 := a.m00 / l00
  let u01 := a.m01 / l00
  let u02 := a.m02 / l00
  let u03 := a.m03 / l00
  let l10 := a.m10 / u00
  let l20 := a.m20 / u00
  let l30 := a.m30 / u00
  -- i = 1
  let l11 : ℚ := 1
  let u11 := (a.m11 - l10 * u01) / l11
  let u12 := (a.m12 - l10 * u02) / l11
  let u13 := (a.m13 - l10 * u03) / l11
  let l21 := (a.m21 - l20 * u01) / u11
  let l31 := (a.m31 - l30 * u01) / u11
  -- i = 2
  let l22 : ℚ := 1
  let u22 := (a.m22 - (l20 * u02 + l21 * u12)) / l22
  let u23 := (a.m23 - (l20 * u03 + l21 * u13)) / l22
  let l32 := (a.m32 - (l30 * u02 + l31 * u12)) / u22
  -- i = 3
  let l33 : ℚ := 1
  let u33 := (a.m33 - (l30 * u03 + l31 * u13 + l32 * u23)) / l33
  (⟨l00, 0, 0, 0, l10, l11, 0, 0, l20, l21, l22, 0, l30, l31, l32, l33⟩,
   ⟨u00, u01, u02, u03, 0, u11, u12, u13, 0, 0, u22, u23, 0, 0, 0, u33⟩)

end Spec

namespace Ieee

/-- Behavioural model of an IEEE-754 `float` value: finite values are
idealized as exact rationals (no rounding, and negative zero is identified
with `fin 0`); infinities and NaN are explicit. -/
inductive Fp where
  | fin (q : ℚ)
  | inf (negative : Bool)
  | nan
deriving DecidableEq

namespace Fp

/-- IEEE addition (on the idealized finite values). -/
def add : Fp → Fp → Fp
  | fin a, fin b => fin (a + b)
  | fin _, inf s => inf s
  | inf s, fin _ => inf s
  | inf s, inf t => if s = t then inf s else nan
  | _, _ => nan

/-- IEEE multiplication: `0 * ∞ = NaN`, otherwise signs combine. -/
def mul : Fp → Fp → Fp
  | fin a, fin b => fin (a * b)
  | fin a, inf s => if a = 0 then nan else inf (xor (decide (a < 0)) s)
  | inf s, fin b => if b = 0 then nan else inf (xor s (decide (b < 0)))
  | inf s, inf t => inf (xor s t)
  | _, _ => nan

/-- IEEE division: `0 / 0 = NaN`, `x / 0 = ±∞` for finite `x ≠ 0`,
`x / ∞ = 0`, `∞ / ∞ = NaN`. -/
def div : Fp → Fp → Fp
  | fin a, fin b =>
      if b = 0 then (if a = 0 then nan else inf (decide (a < 0))) else fin (a / b)
  | fin _, inf _ => fin 0
  | inf s, fin b => inf (xor s (decide (b < 0)))
  | inf _, inf _ => nan
  | _, _ => nan

/-- IEEE square root (idealized on finite values by `Rat.sqrt`, which is
exact on perfect squares such as 0 and 1; negative arguments give NaN). -/
def sqrt : Fp → Fp
  | fin q => if q < 0 then nan else fin (Rat.sqrt q)
  | inf false => inf false
  | _ => nan

/-- IEEE `==`: NaN compares unequal to everything (itself included);
otherwise exact value comparison, with no tolerance. -/
def beq : Fp → Fp → Bool
  | fin a, fin b => decide (a = b)
  | inf s, inf t => s == t
  | _, _ => false

end Fp

/-- `Math::Vec3` (the header implementation) over the behavioural IEEE
scalar model; used for the claims about NaN and comparison semantics. -/
structure Vec3 where
  x : Fp
  y : Fp
  z : Fp
deriving DecidableEq

namespace Vec3

/-- `Vec3::get(int index)`: the switch returns the component for `0..2`
and `NAN` for any other index. -/
def get (v : Vec3) : Int → Fp
  | 0 => v.x
  | 1 => v.y
  | 2 => v.z
  | _ => Fp.nan

/-- `Vec3::set(int index, value)`: the switch writes the component for
`0..2` and falls through (no write) for any other index. -/
def set (v : Vec3) : Int → Fp → Vec3
  | 0, value => { v with x := value }
  | 1, value => { v with y := value }
  | 2, value => { v with z := value }
  | _, _ => v

/-- `Vec3::operator==`: short-circuit conjunction of IEEE `==` on the
three components. -/
def beq (a b : Vec3) : Bool :=
  Fp.beq a.x b.x && Fp.beq a.y b.y && Fp.beq a.z b.z

/-- `Vec3::squareLength()`: `x*x + y*y + z*z` (left-associated). -/
def squareLength (v : Vec3) : Fp :=
  Fp.add (Fp.add (Fp.mul v.x v.x) (Fp.mul v.y v.y)) (Fp.mul v.z v.z)

/-- `Vec3::length()`: `sqrtf(squareLength())`. -/
def length (v : Vec3) : Fp :=
  Fp.sqrt v.squareLength

/-- `Vec3::normalize()`: computes `length()` once, divides each component
by it (no guard against zero length), mutates the receiver and returns
it; the returned value is the mutated receiver's final state. -/
def normalize (v : Vec3) : Vec3 :=
  let length := v.length
  ⟨Fp.div v.x length, Fp.div v.y length, Fp.div v.z length⟩

/-- No component of the vector is NaN. -/
def noNaN (v : Vec3) : Prop :=
  v.x ≠ Fp.nan ∧ v.y ≠ Fp.nan ∧ v.z ≠ Fp.nan

instance (v : Vec3) : Decidable (noNaN v) := by
  unfold noNaN; infer_instance

end Vec3

/-- `Math::Vec4` over the behavioural IEEE scalar model, with the
`Vec4.cpp` definitions of indexed access (the `assert`-on-out-of-range
reference implementation). -/
structure Vec4 where
  x : Fp
  y : Fp
  z : Fp
  w : Fp
deriving DecidableEq

namespace Vec4

/-- `Vec4::get(int index)` from `Vec4.cpp`:
`assert(index >= X && index <= W)` then read.  The assertion failure on an
out-of-range index is modelled as `none`. -/
def get (v : Vec4) : Int → Option Fp
  | 0 => some v.x
  | 1 => some v.y
  | 2 => some v.z
  | 3 => some v.w
  | _ => none

/-- `Vec4::set(int index, value)` from `Vec4.cpp`:
`assert(index >= X && index <= W)` then write; assertion failure is
modelled as `none`. -/
def set (v : Vec4) : Int → Fp → Option Vec4
  | 0, value => some { v with x := value }
  | 1, value => some { v with y := value }
  | 2, value => some { v with z := value }
  | 3, value => some { v with w := value }
  | _, _ => none

end Vec4

end Ieee

/-! ### Helper lemmas (shared) -/

namespace Exact

theorem mat3_ext_entries {a b : Mat3} (h00 : a.m00 = b.m00) (h01 : a.m01 = b.m01)
    (h02 : a.m02 = b.m02) (h10 : a.m10 = b.m10) (h11 : a.m11 = b.m11) (h12 : a.m12 = b.m12)
    (h20 : a.m20 = b.m20) (h21 : a.m21 = b.m21) (h22 : a.m22 = b.m22) : a = b := by
  cases a; cases b
  simp only [Mat3.mk.injEq]
  exact ⟨h00, h01, h02, h10, h11, h12, h20, h21, h22⟩

theorem mat3_beq_iff (a b : Mat3) : Mat3.beq a b = true ↔ a = b := by
  cases a; cases b
  simp [Mat3.beq, Mat3.mk.injEq, and_assoc]

theorem vec3_beq_iff (a b : Vec3) : Vec3.beq a b = true ↔ a = b := by
  cases a; cases b
  simp [Vec3.beq, Vec3.mk.injEq, and_assoc]

theorem vec4_beq_iff (a b : Vec4) : Vec4.beq a b = true ↔ a = b := by
  cases a; cases b
  simp [Vec4.beq, Vec4.mk.injEq, and_assoc]

theorem mat4_ext_entries {a b : Mat4} (h00 : a.m00 = b.m00) (h01 : a.m01 = b.m01)
    (h02 : a.m02 = b.m02) (h03 : a.m03 = b.m03) (h10 : a.m10 = b.m10) (h11 : a.m11 = b.m11)
    (h12 : a.m12 = b.m12) (h13 : a.m13 = b.m13) (h20 : a.m20 = b.m20) (h21 : a.m21 = b.m21)
    (h22 : a.m22 = b.m22) (h23 : a.m23 = b.m23) (h30 : a.m30 = b.m30) (h31 : a.m31 = b.m31)
    (h32 : a.m32 = b.m32) (h33 : a.m33 = b.m33) : a = b := by
  cases a; cases b
  simp only [Mat4.mk.injEq]
  exact ⟨h00, h01, h02, h03, h10, h11, h12, h13, h20, h21, h22, h23, h30, h31, h32, h33⟩

theorem mat4_beq_iff (a b : Mat4) : Mat4.beq a b = true ↔ a = b := by
  cases a; cases b
  simp [Mat4.beq, Mat4.mk.injEq, and_assoc]

theorem mat3_mul_init_self (m : Mat3) : Mat3.mul m Mat3.init = m := by
  cases m
  simp only [Mat3.mul, Mat3.init, Mat3.get, Mat3.set, Mat3.mk.injEq]
  refine ⟨by ring, by ring, by ring, by ring, by ring, by ring, by ring, by ring, by ring⟩

theorem mat3_init_mul_self (m : Mat3) : Mat3.mul Mat3.init m = m := by
  cases m
  simp only [Mat3.mul, Mat3.init, Mat3.get, Mat3.set, Mat3.mk.injEq]
  refine ⟨by ring, by ring, by ring, by ring, by ring, by ring, by ring, by ring, by ring⟩

theorem mat4_mul_init_self (m : Mat4) : Mat4.mul m Mat4.init = m := by
  cases m
  simp only [Mat4.mul, Mat4.init, Mat4.get, Mat4.set, Mat4.mk.injEq]
  refine ⟨by ring, by ring, by ring, by ring, by ring, by ring, by ring, by ring,
          by ring, by ring, by ring, by ring, by ring, by ring, by ring, by ring⟩

theorem mat4_init_mul_self (m : Mat4) : Mat4.mul Mat4.init m = m := by
  cases m
  simp only [Mat4.mul, Mat4.init, Mat4.get, Mat4.set, Mat4.mk.injEq]
  refine ⟨by ring, by ring, by ring, by ring, by ring, by ring, by ring, by ring,
          by ring, by ring, by ring, by ring, by ring, by ring, by ring, by ring⟩

end Exact

namespace Ieee

theorem fp_beq_true_iff (a b : Fp) :
    Fp.beq a b = true ↔ a ≠ Fp.nan ∧ b ≠ Fp.nan ∧ a = b := by
  cases a <;> cases b <;> simp [Fp.beq]

theorem vec3_beq_true_iff (a b : Vec3) :
    Vec3.beq a b = true ↔ a.noNaN ∧ b.noNaN ∧ a = b := by
  cases a; cases b
  simp only [Vec3.beq, Bool.and_eq_true, fp_beq_true_iff, Vec3.noNaN, Vec3.mk.injEq]
  tauto

end Ieee


/-! ### Closed forms and algebraic helper lemmas, `Mat3` -/

namespace Exact

theorem mat3_decompose_eval (a L0 U0 : Mat3) :
    a.decompose L0 U0 =
      (let u00 := a.m00 / 1
       let u01 := a.m01 / 1
       let u02 := a.m02 / 1
       let l10 := a.m10 / u00
       let l20 := a.m20 / u00
       let u11 := (a.m11 - l10 * u01) / 1
       let u12 := (a.m12 - l10 * u02) / 1
       let l21 := (a.m21 - l20 * u01) / u11
       let u22 := ((a.m22 - l20 * u02) - l21 * u12) / 1
       (⟨1, 0, 0, l10, 1, 0, l20, l21, 1⟩,
        ⟨u00, u01, u02, U0.m10, u11, u12, U0.m20, U0.m21, u22⟩)) := by
  simp only [Mat3.decompose, Mat3.set, Mat3.get]

theorem mat3_mul_eval (x y : Mat3) :
    Mat3.mul x y =
      ⟨x.m00 * y.m00 + x.m01 * y.m10 + x.m02 * y.m20,
       x.m00 * y.m01 + x.m01 * y.m11 + x.m02 * y.m21,
       x.m00 * y.m02 + x.m01 * y.m12 + x.m02 * y.m22,
       x.m10 * y.m00 + x.m11 * y.m10 + x.m12 * y.m20,
       x.m10 * y.m01 + x.m11 * y.m11 + x.m12 * y.m21,
       x.m10 * y.m02 + x.m11 * y.m12 + x.m12 * y.m22,
       x.m20 * y.m00 + x.m21 * y.m10 + x.m22 * y.m20,
       x.m20 * y.m01 + x.m21 * y.m11 + x.m22 * y.m21,
       x.m20 * y.m02 + x.m21 * y.m12 + x.m22 * y.m22⟩ := by
  simp only [Mat3.mul, Mat3.get, Mat3.set, Mat3.init]

theorem mat3_mulVec_eval (m : Mat3) (v : Vec3) :
    m.mulVec v =
      ⟨m.m00 * v.x + m.m01 * v.y + m.m02 * v.z,
       m.m10 * v.x + m.m11 * v.y + m.m12 * v.z,
       m.m20 * v.x + m.m21 * v.y + m.m22 * v.z⟩ := by
  simp only [Mat3.mulVec, Mat3.get, Vec3.get, Vec3.set, Vec3.init]

theorem mat3_invert_eval (a : Mat3) :
    a.invert =
      (let lu := a.decompose Mat3.init Mat3.init
       let x0 := lu.2.solveU (lu.1.solveL ⟨1, 0, 0⟩)
       let x1 := lu.2.solveU (lu.1.solveL ⟨0, 1, 0⟩)
       let x2 := lu.2.solveU (lu.1.solveL ⟨0, 0, 1⟩)
       ⟨x0.x, x1.x, x2.x, x0.y, x1.y, x2.y, x0.z, x1.z, x2.z⟩) := by
  simp only [Mat3.invert, Mat3.set, Vec3.get]

theorem mat3_mulVec_mul (p q : Mat3) (v : Vec3) :
    (Mat3.mul p q).mulVec v = p.mulVec (q.mulVec v) := by
  simp only [mat3_mul_eval, mat3_mulVec_eval, Vec3.mk.injEq]
  refine ⟨by ring, by ring, by ring⟩

theorem mat3_solveL_correct (L : Mat3) (hd0 : L.m00 = 1) (h01 : L.m01 = 0) (h02 : L.m02 = 0)
    (hd1 : L.m11 = 1) (h12 : L.m12 = 0) (hd2 : L.m22 = 1) (b : Vec3) :
    L.mulVec (L.solveL b) = b := by
  obtain ⟨l00, l01, l02, l10, l11, l12, l20, l21, l22⟩ := L
  obtain ⟨b0, b1, b2⟩ := b
  simp only at hd0 h01 h02 hd1 h12 hd2
  subst hd0 h01 h02 hd1 h12 hd2
  simp only [Mat3.mulVec, Mat3.solveL, Mat3.get, Mat3.set, Vec3.get, Vec3.set, Vec3.init,
    Vec3.mk.injEq, div_one]
  norm_num

theorem mat3_solveU_correct (U : Mat3) (h10 : U.m10 = 0) (h20 : U.m20 = 0) (h21 : U.m21 = 0)
    (p0 : U.m00 ≠ 0) (p1 : U.m11 ≠ 0) (p2 : U.m22 ≠ 0) (b : Vec3) :
    U.mulVec (U.solveU b) = b := by
  obtain ⟨u00, u01, u02, u10, u11, u12, u20, u21, u22⟩ := U
  obtain ⟨b0, b1, b2⟩ := b
  simp only at h10 h20 h21 p0 p1 p2
  subst h10 h20 h21
  simp only [Mat3.mulVec, Mat3.solveU, Mat3.get, Mat3.set, Vec3.get, Vec3.set, Vec3.init,
    Vec3.mk.injEq, div_one]
  refine ⟨?_, ?_, ?_⟩
  all_goals field_simp
  all_goals try ring

theorem mat3_mul_decompose_eq (a : Mat3) (h : a.pivots) :
    Mat3.mul (a.decompose Mat3.init Mat3.init).1 (a.decompose Mat3.init Mat3.init).2 = a := by
  obtain ⟨a00, a01, a02, a10, a11, a12, a20, a21, a22⟩ := a
  obtain ⟨h0, h1, h2⟩ := h
  simp only [mat3_decompose_eval, Mat3.init, Mat3.set] at h0 h1 h2
  simp only [mat3_decompose_eval, Mat3.init, Mat3.set, mat3_mul_eval, Mat3.mk.injEq]
  refine ⟨by ring, by ring, by ring, ?_, by ring, by ring, ?_, ?_, by ring⟩
  · rw [div_mul_cancel₀ _ h0]; ring
  · rw [div_mul_cancel₀ _ h0]; ring
  · rw [div_mul_cancel₀ _ h1]; ring

theorem mat3_solve_columns (a : Mat3) (h : a.pivots) (b : Vec3) :
    a.mulVec ((a.decompose Mat3.init Mat3.init).2.solveU
      ((a.decompose Mat3.init Mat3.init).1.solveL b)) = b := by
  obtain ⟨h0, h1, h2⟩ := h
  have hL00 : (a.decompose Mat3.init Mat3.init).1.m00 = 1 := by simp [mat3_decompose_eval]
  have hL01 : (a.decompose Mat3.init Mat3.init).1.m01 = 0 := by simp [mat3_decompose_eval]
  have hL02 : (a.decompose Mat3.init Mat3.init).1.m02 = 0 := by simp [mat3_decompose_eval]
  have hL11 : (a.decompose Mat3.init Mat3.init).1.m11 = 1 := by simp [mat3_decompose_eval]
  have hL12 : (a.decompose Mat3.init Mat3.init).1.m12 = 0 := by simp [mat3_decompose_eval]
  have hL22 : (a.decompose Mat3.init Mat3.init).1.m22 = 1 := by simp [mat3_decompose_eval]
  have hU10 : (a.decompose Mat3.init Mat3.init).2.m10 = 0 := by
    simp [mat3_decompose_eval, Mat3.init, Mat3.set]
  have hU20 : (a.decompose Mat3.init Mat3.init).2.m20 = 0 := by
    simp [mat3_decompose_eval, Mat3.init, Mat3.set]
  have hU21 : (a.decompose Mat3.init Mat3.init).2.m21 = 0 := by
    simp [mat3_decompose_eval, Mat3.init, Mat3.set]
  set x := (a.decompose Mat3.init Mat3.init).2.solveU
      ((a.decompose Mat3.init Mat3.init).1.solveL b) with hx
  rw [← mat3_mul_decompose_eq a ⟨h0, h1, h2⟩, mat3_mulVec_mul, hx,
    mat3_solveU_correct _ hU10 hU20 hU21 h0 h1 h2,
    mat3_solveL_correct _ hL00 hL01 hL02 hL11 hL12 hL22]

theorem mat3_mul_invert_eq_init (a : Mat3) (h : a.pivots) :
    Mat3.mul a a.invert = Mat3.init := by
  have e0 := mat3_solve_columns a h ⟨1, 0, 0⟩
  have e1 := mat3_solve_columns a h ⟨0, 1, 0⟩
  have e2 := mat3_solve_columns a h ⟨0, 0, 1⟩
  rw [mat3_mulVec_eval, Vec3.mk.injEq] at e0 e1 e2
  obtain ⟨e00, e01, e02⟩ := e0
  obtain ⟨e10, e11, e12⟩ := e1
  obtain ⟨e20, e21, e22⟩ := e2
  rw [mat3_invert_eval]
  simp only [mat3_mul_eval, Mat3.init, Mat3.set, Mat3.mk.injEq]
  exact ⟨e00, e10, e20, e01, e11, e21, e02, e12, e22⟩

theorem mat3_toMatrix_mul_hom (x y : Mat3) :
    (Mat3.mul x y).toMatrix = x.toMatrix * y.toMatrix := by
  rw [mat3_mul_eval]
  ext i j
  fin_cases i <;> fin_cases j <;>
    simp [Mat3.toMatrix, Matrix.mul_apply, Fin.sum_univ_three]

theorem mat3_toMatrix_init_eq_one : Mat3.init.toMatrix = 1 := by
  ext i j
  fin_cases i <;> fin_cases j <;>
    simp [Mat3.toMatrix, Mat3.init, Mat3.set, Matrix.one_apply,
      Matrix.vecHead, Matrix.vecTail]

theorem mat3_toMatrix_inj {x y : Mat3} (h : x.toMatrix = y.toMatrix) : x = y := by
  have e : ∀ i j, x.toMatrix i j = y.toMatrix i j := fun i j => by rw [h]
  exact mat3_ext_entries (e 0 0) (e 0 1) (e 0 2) (e 1 0) (e 1 1) (e 1 2)
    (e 2 0) (e 2 1) (e 2 2)

theorem mat3_invert_mul_eq_init (a : Mat3) (h : a.pivots) :
    Mat3.mul a.invert a = Mat3.init := by
  have h1 : a.toMatrix * a.invert.toMatrix = 1 := by
    rw [← mat3_toMatrix_mul_hom, mat3_mul_invert_eq_init a h, mat3_toMatrix_init_eq_one]
  have h2 : a.invert.toMatrix * a.toMatrix = 1 := Matrix.mul_eq_one_comm.mp h1
  apply mat3_toMatrix_inj
  rw [mat3_toMatrix_mul_hom, h2, mat3_toMatrix_init_eq_one]

theorem mat3_invert_invert_eq (a : Mat3) (ha : a.pivots) (hb : a.invert.pivots) :
    a.invert.invert = a := by
  apply mat3_toMatrix_inj
  have e1 : a.invert.toMatrix * a.invert.invert.toMatrix = 1 := by
    rw [← mat3_toMatrix_mul_hom, mat3_mul_invert_eq_init a.invert hb,
      mat3_toMatrix_init_eq_one]
  have e3 : a.toMatrix * a.invert.toMatrix = 1 := by
    rw [← mat3_toMatrix_mul_hom, mat3_mul_invert_eq_init a ha, mat3_toMatrix_init_eq_one]
  calc a.invert.invert.toMatrix
      = 1 * a.invert.invert.toMatrix := (one_mul _).symm
    _ = (a.toMatrix * a.invert.toMatrix) * a.invert.invert.toMatrix := by rw [e3]
    _ = a.toMatrix * (a.invert.toMatrix * a.invert.invert.toMatrix) := by rw [mul_assoc]
    _ = a.toMatrix * 1 := by rw [e1]
    _ = a.toMatrix := mul_one _

end Exact

/-! ### Closed forms and algebraic helper lemmas, `Mat4` -/

namespace Exact

theorem mat4_decompose_eval (a L0 U0 : Mat4) :
    a.decompose L0 U0 =
      (let u00 := a.m00 / 1
       let u01 := a.m01 / 1
       let u02 := a.m02 / 1
       let u03 := a.m03 / 1
       let l10 := a.m10 / u00
       let l20 := a.m20 / u00
       let l30 := a.m30 / u00
       let u11 := (a.m11 - l10 * u01) / 1
       let u12 := (a.m12 - l10 * u02) / 1
       let u13 := (a.m13 - l10 * u03) / 1
       let l21 := (a.m21 - l20 * u01) / u11
       let l31 := (a.m31 - l30 * u01) / u11
       let u22 := ((a.m22 - l20 * u02) - l21 * u12) / 1
       let u23 := ((a.m23 - l20 * u03) - l21 * u13) / 1
       let l32 := ((a.m32 - l30 * u02) - l31 * u12) / u22
       let u33 := (((a.m33 - l30 * u03) - l31 * u13) - l32 * u23) / 1
       (⟨1, 0, 0, 0, l10, 1, 0, 0, l20, l21, 1, 0, l30, l31, l32, 1⟩,
        ⟨u00, u01, u02, u03, U0.m10, u11, u12, u13,
         U0.m20, U0.m21, u22, u23, U0.m30, U0.m31, U0.m32, u33⟩)) := by
  simp only [Mat4.decompose, Mat4.set, Mat4.get]

theorem mat4_mul_eval (x y : Mat4) :
    Mat4.mul x y =
      ⟨x.m00 * y.m00 + x.m01 * y.m10 + x.m02 * y.m20 + x.m03 * y.m30,
       x.m00 * y.m01 + x.m01 * y.m11 + x.m02 * y.m21 + x.m03 * y.m31,
       x.m00 * y.m02 + x.m01 * y.m12 + x.m02 * y.m22 + x.m03 * y.m32,
       x.m00 * y.m03 + x.m01 * y.m13 + x.m02 * y.m23 + x.m03 * y.m33,
       x.m10 * y.m00 + x.m11 * y.m10 + x.m12 * y.m20 + x.m13 * y.m30,
       x.m10 * y.m01 + x.m11 * y.m11 + x.m12 * y.m21 + x.m13 * y.m31,
       x.m10 * y.m02 + x.m11 * y.m12 + x.m12 * y.m22 + x.m13 * y.m32,
       x.m10 * y.m03 + x.m11 * y.m13 + x.m12 * y.m23 + x.m13 * y.m33,
       x.m20 * y.m00 + x.m21 * y.m10 + x.m22 * y.m20 + x.m23 * y.m30,
       x.m20 * y.m01 + x.m21 * y.m11 + x.m22 * y.m21 + x.m23 * y.m31,
       x.m20 * y.m02 + x.m21 * y.m12 + x.m22 * y.m22 + x.m23 * y.m32,
       x.m20 * y.m03 + x.m21 * y.m13 + x.m22 * y.m23 + x.m23 * y.m33,
       x.m30 * y.m00 + x.m31 * y.m10 + x.m32 * y.m20 + x.m33 * y.m30,
       x.m30 * y.m01 + x.m31 * y.m11 + x.m32 * y.m21 + x.m33 * y.m31,
       x.m30 * y.m02 + x.m31 * y.m12 + x.m32 * y.m22 + x.m33 * y.m32,
       x.m30 * y.m03 + x.m31 * y.m13 + x.m32 * y.m23 + x.m33 * y.m33⟩ := by
  simp only [Mat4.mul, Mat4.get, Mat4.set, Mat4.init]

theorem mat4_mulVec_eval (m : Mat4) (v : Vec4) :
    m.mulVec v =
      ⟨m.m00 * v.x + m.m01 * v.y + m.m02 * v.z + m.m03 * v.w,
       m.m10 * v.x + m.m11 * v.y + m.m12 * v.z + m.m13 * v.w,
       m.m20 * v.x + m.m21 * v.y + m.m22 * v.z + m.m23 * v.w,
       m.m30 * v.x + m.m31 * v.y + m.m32 * v.z + m.m33 * v.w⟩ := by
  simp only [Mat4.mulVec, Mat4.get, Vec4.get, Vec4.set, Vec4.init]

theorem mat4_invert_eval (a : Mat4) :
    a.invert =
      (let lu := a.decompose Mat4.init Mat4.init
       let x0 := lu.2.solveU (lu.1.solveL ⟨1, 0, 0, 0⟩)
       let x1 := lu.2.solveU (lu.1.solveL ⟨0, 1, 0, 0⟩)
       let x2 := lu.2.solveU (lu.1.solveL ⟨0, 0, 1, 0⟩)
       let x3 := lu.2.solveU (lu.1.solveL ⟨0, 0, 0, 1⟩)
       ⟨x0.x, x1.x, x2.x, x3.x, x0.y, x1.y, x2.y, x3.y,
        x0.z, x1.z, x2.z, x3.z, x0.w, x1.w, x2.w, x3.w⟩) := by
  simp only [Mat4.invert, Mat4.set, Vec4.get]

theorem mat4_mulVec_mul (p q : Mat4) (v : Vec4) :
    (Mat4.mul p q).mulVec v = p.mulVec (q.mulVec v) := by
  simp only [mat4_mul_eval, mat4_mulVec_eval, Vec4.mk.injEq]
  refine ⟨by ring, by ring, by ring, by ring⟩

theorem mat4_solveL_correct (L : Mat4) (hd0 : L.m00 = 1) (h01 : L.m01 = 0) (h02 : L.m02 = 0)
    (h03 : L.m03 = 0) (hd1 : L.m11 = 1) (h12 : L.m12 = 0) (h13 : L.m13 = 0)
    (hd2 : L.m22 = 1) (h23 : L.m23 = 0) (hd3 : L.m33 = 1) (b : Vec4) :
    L.mulVec (L.solveL b) = b := by
  obtain ⟨l00, l01, l02, l03, l10, l11, l12, l13, l20, l21, l22, l23, l30, l31, l32, l33⟩ := L
  obtain ⟨b0, b1, b2, b3⟩ := b
  simp only at hd0 h01 h02 h03 hd1 h12 h13 hd2 h23 hd3
  subst hd0 h01 h02 h03 hd1 h12 h13 hd2 h23 hd3
  simp only [Mat4.mulVec, Mat4.solveL, Mat4.get, Mat4.set, Vec4.get, Vec4.set, Vec4.init,
    Vec4.mk.injEq, div_one]
  norm_num

theorem mat4_solveU_correct (U : Mat4) (h10 : U.m10 = 0) (h20 : U.m20 = 0) (h30 : U.m30 = 0)
    (h21 : U.m21 = 0) (h31 : U.m31 = 0) (h32 : U.m32 = 0)
    (p0 : U.m00 ≠ 0) (p1 : U.m11 ≠ 0) (p2 : U.m22 ≠ 0) (p3 : U.m33 ≠ 0) (b : Vec4) :
    U.mulVec (U.solveU b) = b := by
  obtain ⟨u00, u01, u02, u03, u10, u11, u12, u13, u20, u21, u22, u23, u30, u31, u32, u33⟩ := U
  obtain ⟨b0, b1, b2, b3⟩ := b
  simp only at h10 h20 h30 h21 h31 h32 p0 p1 p2 p3
  subst h10 h20 h30 h21 h31 h32
  simp only [Mat4.mulVec, Mat4.solveU, Mat4.get, Mat4.set, Vec4.get, Vec4.set, Vec4.init,
    Vec4.mk.injEq, div_one]
  refine ⟨?_, ?_, ?_, ?_⟩
  all_goals field_simp
  all_goals try ring

theorem mat4_mul_decompose_eq (a : Mat4) (h : a.pivots) :
    Mat4.mul (a.decompose Mat4.init Mat4.init).1 (a.decompose Mat4.init Mat4.init).2 = a := by
  obtain ⟨a00, a01, a02, a03, a10, a11, a12, a13,
          a20, a21, a22, a23, a30, a31, a32, a33⟩ := a
  obtain ⟨h0, h1, h2, h3⟩ := h
  simp only [mat4_decompose_eval, Mat4.init, Mat4.set] at h0 h1 h2 h3
  simp only [mat4_decompose_eval, Mat4.init, Mat4.set, mat4_mul_eval, Mat4.mk.injEq]
  refine ⟨by ring, by ring, by ring, by ring,
          ?_, by ring, by ring, by ring,
          ?_, ?_, by ring, by ring,
          ?_, ?_, ?_, by ring⟩
  · rw [div_mul_cancel₀ _ h0]; ring
  · rw [div_mul_cancel₀ _ h0]; ring
  · rw [div_mul_cancel₀ _ h1]; ring
  · rw [div_mul_cancel₀ _ h0]; ring
  · rw [div_mul_cancel₀ _ h1]; ring
  · rw [div_mul_cancel₀ _ h2]; ring

theorem mat4_solve_columns (a : Mat4) (h : a.pivots) (b : Vec4) :
    a.mulVec ((a.decompose Mat4.init Mat4.init).2.solveU
      ((a.decompose Mat4.init Mat4.init).1.solveL b)) = b := by
  obtain ⟨h0, h1, h2, h3⟩ := h
  have hL00 : (a.decompose Mat4.init Mat4.init).1.m00 = 1 := by simp [mat4_decompose_eval]
  have hL01 : (a.decompose Mat4.init Mat4.init).1.m01 = 0 := by simp [mat4_decompose_eval]
  have hL02 : (a.decompose Mat4.init Mat4.init).1.m02 = 0 := by simp [mat4_decompose_eval]
  have hL03 : (a.decompose Mat4.init Mat4.init).1.m03 = 0 := by simp [mat4_decompose_eval]
  have hL11 : (a.decompose Mat4.init Mat4.init).1.m11 = 1 := by simp [mat4_decompose_eval]
  have hL12 : (a.decompose Mat4.init Mat4.init).1.m12 = 0 := by simp [mat4_decompose_eval]
  have hL13 : (a.decompose Mat4.init Mat4.init).1.m13 = 0 := by simp [mat4_decompose_eval]
  have hL22 : (a.decompose Mat4.init Mat4.init).1.m22 = 1 := by simp [mat4_decompose_eval]
  have hL23 : (a.decompose Mat4.init Mat4.init).1.m23 = 0 := by simp [mat4_decompose_eval]
  have hL33 : (a.decompose Mat4.init Mat4.init).1.m33 = 1 := by simp [mat4_decompose_eval]
  have hU10 : (a.decompose Mat4.init Mat4.init).2.m10 = 0 := by
    simp [mat4_decompose_eval, Mat4.init, Mat4.set]
  have hU20 : (a.decompose Mat4.init Mat4.init).2.m20 = 0 := by
    simp [mat4_decompose_eval, Mat4.init, Mat4.set]
  have hU30 : (a.decompose Mat4.init Mat4.init).2.m30 = 0 := by
    simp [mat4_decompose_eval, Mat4.init, Mat4.set]
  have hU21 : (a.decompose Mat4.init Mat4.init).2.m21 = 0 := by
    simp [mat4_decompose_eval, Mat4.init, Mat4.set]
  have hU31 : (a.decompose Mat4.init Mat4.init).2.m31 = 0 := by
    simp [mat4_decompose_eval, Mat4.init, Mat4.set]
  have hU32 : (a.decompose Mat4.init Mat4.init).2.m32 = 0 := by
    simp [mat4_decompose_eval, Mat4.init, Mat4.set]
  set x := (a.decompose Mat4.init Mat4.init).2.solveU
      ((a.decompose Mat4.init Mat4.init).1.solveL b) with hx
  rw [← mat4_mul_decompose_eq a ⟨h0, h1, h2, h3⟩, mat4_mulVec_mul, hx,
    mat4_solveU_correct _ hU10 hU20 hU30 hU21 hU31 hU32 h0 h1 h2 h3,
    mat4_solveL_correct _ hL00 hL01 hL02 hL03 hL11 hL12 hL13 hL22 hL23 hL33]

theorem mat4_mul_invert_eq_init (a : Mat4) (h : a.pivots) :
    Mat4.mul a a.invert = Mat4.init := by
  have e0 := mat4_solve_columns a h ⟨1, 0, 0, 0⟩
  have e1 := mat4_solve_columns a h ⟨0, 1, 0, 0⟩
  have e2 := mat4_solve_columns a h ⟨0, 0, 1, 0⟩
  have e3 := mat4_solve_columns a h ⟨0, 0, 0, 1⟩
  rw [mat4_mulVec_eval, Vec4.mk.injEq] at e0 e1 e2 e3
  obtain ⟨e00, e01, e02, e03⟩ := e0
  obtain ⟨e10, e11, e12, e13⟩ := e1
  obtain ⟨e20, e21, e22, e23⟩ := e2
  obtain ⟨e30, e31, e32, e33⟩ := e3
  rw [mat4_invert_eval]
  simp only [mat4_mul_eval, Mat4.init, Mat4.set, Mat4.mk.injEq]
  exact ⟨e00, e10, e20, e30, e01, e11, e21, e31, e02, e12, e22, e32, e03, e13, e23, e33⟩

theorem mat4_toMatrix_mul_hom (x y : Mat4) :
    (Mat4.mul x y).toMatrix = x.toMatrix * y.toMatrix := by
  rw [mat4_mul_eval]
  ext i j
  fin_cases i <;> fin_cases j <;>
    simp [Mat4.toMatrix, Matrix.mul_apply, Fin.sum_univ_four]

theorem mat4_toMatrix_init_eq_one : Mat4.init.toMatrix = 1 := by
  ext i j
  fin_cases i <;> fin_cases j <;>
    simp [Mat4.toMatrix, Mat4.init, Mat4.set, Matrix.one_apply,
      Matrix.vecHead, Matrix.vecTail]

theorem mat4_toMatrix_inj {x y : Mat4} (h : x.toMatrix = y.toMatrix) : x = y := by
  have e : ∀ i j, x.toMatrix i j = y.toMatrix i j := fun i j => by rw [h]
  exact mat4_ext_entries (e 0 0) (e 0 1) (e 0 2) (e 0 3) (e 1 0) (e 1 1) (e 1 2) (e 1 3)
    (e 2 0) (e 2 1) (e 2 2) (e 2 3) (e 3 0) (e 3 1) (e 3 2) (e 3 3)

theorem mat4_invert_mul_eq_init (a : Mat4) (h : a.pivots) :
    Mat4.mul a.invert a = Mat4.init := by
  have h1 : a.toMatrix * a.invert.toMatrix = 1 := by
    rw [← mat4_toMatrix_mul_hom, mat4_mul_invert_eq_init a h, mat4_toMatrix_init_eq_one]
  have h2 : a.invert.toMatrix * a.toMatrix = 1 := Matrix.mul_eq_one_comm.mp h1
  apply mat4_toMatrix_inj
  rw [mat4_toMatrix_mul_hom, h2, mat4_toMatrix_init_eq_one]

theorem mat4_invert_invert_eq (a : Mat4) (ha : a.pivots) (hb : a.invert.pivots) :
    a.invert.invert = a := by
  apply mat4_toMatrix_inj
  have e1 : a.invert.toMatrix * a.invert.invert.toMatrix = 1 := by
    rw [← mat4_toMatrix_mul_hom, mat4_mul_invert_eq_init a.invert hb,
      mat4_toMatrix_init_eq_one]
  have e3 : a.toMatrix * a.invert.toMatrix = 1 := by
    rw [← mat4_toMatrix_mul_hom, mat4_mul_invert_eq_init a ha, mat4_toMatrix_init_eq_one]
  calc a.invert.invert.toMatrix
      = 1 * a.invert.invert.toMatrix := (one_mul _).symm
    _ = (a.toMatrix * a.invert.toMatrix) * a.invert.invert.toMatrix := by rw [e3]
    _ = a.toMatrix * (a.invert.toMatrix * a.invert.invert.toMatrix) := by rw [mul_assoc]
    _ = a.toMatrix * 1 := by rw [e1]
    _ = a.toMatrix := mul_one _

end Exact

/-! ### Claim theorems -/

/-- C4: `transpose` swaps `matrix[i][j]` and `matrix[j][i]` for every pair
with `i < j` (diagonal entries unchanged), mutating and returning the
receiver; consequently applying `transpose` twice restores the matrix
exactly (under the library's `operator==`), for `Mat3` and `Mat4`. -/
theorem c4_transpose_involution :
    (∀ M : Exact.Mat3,
      (M.transpose.get 0 1 = M.get 1 0 ∧ M.transpose.get 1 0 = M.get 0 1 ∧
       M.transpose.get 0 2 = M.get 2 0 ∧ M.transpose.get 2 0 = M.get 0 2 ∧
       M.transpose.get 1 2 = M.get 2 1 ∧ M.transpose.get 2 1 = M.get 1 2 ∧
       M.transpose.get 0 0 = M.get 0 0 ∧ M.transpose.get 1 1 = M.get 1 1 ∧
       M.transpose.get 2 2 = M.get 2 2) ∧
      Exact.Mat3.beq M.transpose.transpose M = true) ∧
    (∀ M : Exact.Mat4,
      (M.transpose.get 0 1 = M.get 1 0 ∧ M.transpose.get 1 0 = M.get 0 1 ∧
       M.transpose.get 0 2 = M.get 2 0 ∧ M.transpose.get 2 0 = M.get 0 2 ∧
       M.transpose.get 0 3 = M.get 3 0 ∧ M.transpose.get 3 0 = M.get 0 3 ∧
       M.transpose.get 1 2 = M.get 2 1 ∧ M.transpose.get 2 1 = M.get 1 2 ∧
       M.transpose.get 1 3 = M.get 3 1 ∧ M.transpose.get 3 1 = M.get 1 3 ∧
       M.transpose.get 2 3 = M.get 3 2 ∧ M.transpose.get 3 2 = M.get 2 3 ∧
       M.transpose.get 0 0 = M.get 0 0 ∧ M.transpose.get 1 1 = M.get 1 1 ∧
       M.transpose.get 2 2 = M.get 2 2 ∧ M.transpose.get 3 3 = M.get 3 3) ∧
      Exact.Mat4.beq M.transpose.transpose M = true) := by
  constructor
  · intro M
    refine ⟨⟨rfl, rfl, rfl, rfl, rfl, rfl, rfl, rfl, rfl⟩, ?_⟩
    rw [Exact.mat3_beq_iff]
    rfl
  · intro M
    refine ⟨⟨rfl, rfl, rfl, rfl, rfl, rfl, rfl, rfl, rfl, rfl, rfl, rfl, rfl, rfl, rfl, rfl⟩, ?_⟩
    rw [Exact.mat4_beq_iff]
    rfl

/-- C5: a default-constructed `Mat3`/`Mat4` is the identity matrix (1 on
the diagonal, 0 elsewhere), and `M * identity == M` and
`identity * M == M` under the library's `operator==` for arbitrary `M`. -/
theorem c5_identity_laws :
    ((Exact.Mat3.init.get 0 0 = 1 ∧ Exact.Mat3.init.get 1 1 = 1 ∧ Exact.Mat3.init.get 2 2 = 1) ∧
     (Exact.Mat3.init.get 0 1 = 0 ∧ Exact.Mat3.init.get 0 2 = 0 ∧ Exact.Mat3.init.get 1 0 = 0 ∧
      Exact.Mat3.init.get 1 2 = 0 ∧ Exact.Mat3.init.get 2 0 = 0 ∧ Exact.Mat3.init.get 2 1 = 0) ∧
     (∀ M : Exact.Mat3,
        Exact.Mat3.beq (Exact.Mat3.mul M Exact.Mat3.init) M = true ∧
        Exact.Mat3.beq (Exact.Mat3.mul Exact.Mat3.init M) M = true)) ∧
    ((Exact.Mat4.init.get 0 0 = 1 ∧ Exact.Mat4.init.get 1 1 = 1 ∧
      Exact.Mat4.init.get 2 2 = 1 ∧ Exact.Mat4.init.get 3 3 = 1) ∧
     (Exact.Mat4.init.get 0 1 = 0 ∧ Exact.Mat4.init.get 0 2 = 0 ∧ Exact.Mat4.init.get 0 3 = 0 ∧
      Exact.Mat4.init.get 1 0 = 0 ∧ Exact.Mat4.init.get 1 2 = 0 ∧ Exact.Mat4.init.get 1 3 = 0 ∧
      Exact.Mat4.init.get 2 0 = 0 ∧ Exact.Mat4.init.get 2 1 = 0 ∧ Exact.Mat4.init.get 2 3 = 0 ∧
      Exact.Mat4.init.get 3 0 = 0 ∧ Exact.Mat4.init.get 3 1 = 0 ∧ Exact.Mat4.init.get 3 2 = 0) ∧
     (∀ M : Exact.Mat4,
        Exact.Mat4.beq (Exact.Mat4.mul M Exact.Mat4.init) M = true ∧
        Exact.Mat4.beq (Exact.Mat4.mul Exact.Mat4.init M) M = true)) := by
  refine ⟨⟨⟨rfl, rfl, rfl⟩, ⟨rfl, rfl, rfl, rfl, rfl, rfl⟩, fun M => ⟨?_, ?_⟩⟩,
          ⟨⟨rfl, rfl, rfl, rfl⟩, ⟨rfl, rfl, rfl, rfl, rfl, rfl, rfl, rfl, rfl, rfl, rfl, rfl⟩,
           fun M => ⟨?_, ?_⟩⟩⟩
  · rw [Exact.mat3_beq_iff]; exact Exact.mat3_mul_init_self M
  · rw [Exact.mat3_beq_iff]; exact Exact.mat3_init_mul_self M
  · rw [Exact.mat4_beq_iff]; exact Exact.mat4_mul_init_self M
  · rw [Exact.mat4_beq_iff]; exact Exact.mat4_init_mul_self M

/-- C6: `M - M` compares equal to the all-zero matrix under the library's
`operator==` for every `Mat3`/`Mat4`, and `v + (-v)` compares equal to the
zero vector for every vector (in the exact-arithmetic model). -/
theorem c6_additive_inverse :
    (∀ M : Exact.Mat3,
       Exact.Mat3.beq (Exact.Mat3.sub M M) ⟨0, 0, 0, 0, 0, 0, 0, 0, 0⟩ = true) ∧
    (∀ M : Exact.Mat4,
       Exact.Mat4.beq (Exact.Mat4.sub M M)
         ⟨0, 0, 0, 0, 0, 0, 0, 0, 0, 0, 0, 0, 0, 0, 0, 0⟩ = true) ∧
    (∀ v : Exact.Vec3,
       Exact.Vec3.beq (Exact.Vec3.add v (Exact.Vec3.neg v)) ⟨0, 0, 0⟩ = true) ∧
    (∀ v : Exact.Vec4,
       Exact.Vec4.beq (Exact.Vec4.add v (Exact.Vec4.neg v)) ⟨0, 0, 0, 0⟩ = true) := by
  refine ⟨fun M => ?_, fun M => ?_, fun v => ?_, fun v => ?_⟩
  · rw [Exact.mat3_beq_iff]
    cases M
    simp only [Exact.Mat3.sub, Exact.Mat3.mk.injEq]
    refine ⟨by ring, by ring, by ring, by ring, by ring, by ring, by ring, by ring, by ring⟩
  · rw [Exact.mat4_beq_iff]
    cases M
    simp only [Exact.Mat4.sub, Exact.Mat4.mk.injEq]
    refine ⟨by ring, by ring, by ring, by ring, by ring, by ring, by ring, by ring,
            by ring, by ring, by ring, by ring, by ring, by ring, by ring, by ring⟩
  · rw [Exact.vec3_beq_iff]
    cases v
    simp only [Exact.Vec3.add, Exact.Vec3.neg, Exact.Vec3.mk.injEq]
    refine ⟨by ring, by ring, by ring⟩
  · rw [Exact.vec4_beq_iff]
    cases v
    simp only [Exact.Vec4.add, Exact.Vec4.neg, Exact.Vec4.mk.injEq]
    refine ⟨by ring, by ring, by ring, by ring⟩

/-- C8: `Vec3::normalize` divides each of the three components by the
value of `length()` (computed once), returning the mutated receiver, with
no guard against zero length; on the zero vector `length()` is `0` and the
`0/0` divisions yield IEEE NaN in every component, with no error raised
(the function is total). -/
theorem c8_normalize_no_guard :
    (∀ v : Ieee.Vec3,
       Ieee.Vec3.normalize v =
         ⟨Ieee.Fp.div v.x v.length, Ieee.Fp.div v.y v.length, Ieee.Fp.div v.z v.length⟩) ∧
    Ieee.Vec3.length ⟨Ieee.Fp.fin 0, Ieee.Fp.fin 0, Ieee.Fp.fin 0⟩ = Ieee.Fp.fin 0 ∧
    Ieee.Vec3.normalize ⟨Ieee.Fp.fin 0, Ieee.Fp.fin 0, Ieee.Fp.fin 0⟩ =
      ⟨Ieee.Fp.nan, Ieee.Fp.nan, Ieee.Fp.nan⟩ := by
  refine ⟨fun v => rfl, ?_, ?_⟩
  · norm_num [Ieee.Vec3.length, Ieee.Vec3.squareLength, Ieee.Fp.mul, Ieee.Fp.add, Ieee.Fp.sqrt]
  · norm_num [Ieee.Vec3.normalize, Ieee.Vec3.length, Ieee.Vec3.squareLength,
      Ieee.Fp.mul, Ieee.Fp.add, Ieee.Fp.sqrt, Ieee.Fp.div]

/-- C10: `decompose` never writes the strictly-below-diagonal entries of
the `upper` output parameter (they keep whatever the caller passed in, for
every input matrix and every incoming state of both output parameters);
with identity-initialized outputs (as `invert` passes them) those entries
are 0 and the `upper` result is genuinely upper-triangular. -/
theorem c10_decompose_upper_frame :
    (∀ A L0 U0 : Exact.Mat3,
       (A.decompose L0 U0).2.m10 = U0.m10 ∧
       (A.decompose L0 U0).2.m20 = U0.m20 ∧
       (A.decompose L0 U0).2.m21 = U0.m21) ∧
    (∀ A : Exact.Mat3,
       (A.decompose Exact.Mat3.init Exact.Mat3.init).2.m10 = 0 ∧
       (A.decompose Exact.Mat3.init Exact.Mat3.init).2.m20 = 0 ∧
       (A.decompose Exact.Mat3.init Exact.Mat3.init).2.m21 = 0) ∧
    (∀ A L0 U0 : Exact.Mat4,
       (A.decompose L0 U0).2.m10 = U0.m10 ∧
       (A.decompose L0 U0).2.m20 = U0.m20 ∧
       (A.decompose L0 U0).2.m21 = U0.m21 ∧
       (A.decompose L0 U0).2.m30 = U0.m30 ∧
       (A.decompose L0 U0).2.m31 = U0.m31 ∧
       (A.decompose L0 U0).2.m32 = U0.m32) ∧
    (∀ A : Exact.Mat4,
       (A.decompose Exact.Mat4.init Exact.Mat4.init).2.m10 = 0 ∧
       (A.decompose Exact.Mat4.init Exact.Mat4.init).2.m20 = 0 ∧
       (A.decompose Exact.Mat4.init Exact.Mat4.init).2.m21 = 0 ∧
       (A.decompose Exact.Mat4.init Exact.Mat4.init).2.m30 = 0 ∧
       (A.decompose Exact.Mat4.init Exact.Mat4.init).2.m31 = 0 ∧
       (A.decompose Exact.Mat4.init Exact.Mat4.init).2.m32 = 0) := by
  refine ⟨fun A L0 U0 => ⟨?_, ?_, ?_⟩, fun A => ⟨?_, ?_, ?_⟩,
          fun A L0 U0 => ⟨?_, ?_, ?_, ?_, ?_, ?_⟩, fun A => ⟨?_, ?_, ?_, ?_, ?_, ?_⟩⟩
  all_goals simp [Exact.mat3_decompose_eval, Exact.mat4_decompose_eval,
    Exact.Mat3.init, Exact.Mat4.init, Exact.Mat3.set, Exact.Mat4.set]

/-- C1: for every 3x3 (resp. 4x4) matrix and every incoming state of the
output parameters, `decompose` computes exactly the spec's Doolittle
recurrences, column by column in increasing `i`: `L` equals the spec's
unit-lower-triangular factor everywhere (diagonal 1, above-diagonal 0,
below-diagonal recurrence), and `U` equals the spec's recurrence on every
entry with `j ≥ i`. -/
theorem c1_decompose_doolittle :
    (∀ A L0 U0 : Exact.Mat3,
       (A.decompose L0 U0).1 = (Spec.doolittle3 A).1 ∧
       ((A.decompose L0 U0).2.m00 = (Spec.doolittle3 A).2.m00 ∧
        (A.decompose L0 U0).2.m01 = (Spec.doolittle3 A).2.m01 ∧
        (A.decompose L0 U0).2.m02 = (Spec.doolittle3 A).2.m02 ∧
        (A.decompose L0 U0).2.m11 = (Spec.doolittle3 A).2.m11 ∧
        (A.decompose L0 U0).2.m12 = (Spec.doolittle3 A).2.m12 ∧
        (A.decompose L0 U0).2.m22 = (Spec.doolittle3 A).2.m22)) ∧
    (∀ A L0 U0 : Exact.Mat4,
       (A.decompose L0 U0).1 = (Spec.doolittle4 A).1 ∧
       ((A.decompose L0 U0).2.m00 = (Spec.doolittle4 A).2.m00 ∧
        (A.decompose L0 U0).2.m01 = (Spec.doolittle4 A).2.m01 ∧
        (A.decompose L0 U0).2.m02 = (Spec.doolittle4 A).2.m02 ∧
        (A.decompose L0 U0).2.m03 = (Spec.doolittle4 A).2.m03 ∧
        (A.decompose L0 U0).2.m11 = (Spec.doolittle4 A).2.m11 ∧
        (A.decompose L0 U0).2.m12 = (Spec.doolittle4 A).2.m12 ∧
        (A.decompose L0 U0).2.m13 = (Spec.doolittle4 A).2.m13 ∧
        (A.decompose L0 U0).2.m22 = (Spec.doolittle4 A).2.m22 ∧
        (A.decompose L0 U0).2.m23 = (Spec.doolittle4 A).2.m23 ∧
        (A.decompose L0 U0).2.m33 = (Spec.doolittle4 A).2.m33)) := by
  constructor
  · intro A L0 U0
    constructor
    · apply Exact.mat3_ext_entries <;>
        simp only [Exact.mat3_decompose_eval, Spec.doolittle3] <;> ring
    · refine ⟨?_, ?_, ?_, ?_, ?_, ?_⟩ <;>
        simp only [Exact.mat3_decompose_eval, Spec.doolittle3] <;> ring
  · intro A L0 U0
    constructor
    · apply Exact.mat4_ext_entries <;>
        simp only [Exact.mat4_decompose_eval, Spec.doolittle4] <;> ring
    · refine ⟨?_, ?_, ?_, ?_, ?_, ?_, ?_, ?_, ?_, ?_⟩ <;>
        simp only [Exact.mat4_decompose_eval, Spec.doolittle4] <;> ring

/-- C2: for every well-conditioned (all pivots nonzero) matrix, the product
of the original matrix with the result of `invert` is the identity matrix
(exactly, in the exact-arithmetic model, hence within any floating
tolerance), `invert` twice restores the matrix, and concretely the `Mat3`
identity after `invert()` equals the `Mat3` identity exactly; mutation of
the receiver is modelled by the returned value. -/
theorem c2_invert_inverse :
    (∀ A : Exact.Mat3, A.pivots → Exact.Mat3.mul A A.invert = Exact.Mat3.init) ∧
    (∀ A : Exact.Mat3, A.pivots → A.invert.pivots → A.invert.invert = A) ∧
    Exact.Mat3.invert Exact.Mat3.init = Exact.Mat3.init ∧
    (∀ A : Exact.Mat4, A.pivots → Exact.Mat4.mul A A.invert = Exact.Mat4.init) ∧
    (∀ A : Exact.Mat4, A.pivots → A.invert.pivots → A.invert.invert = A) := by
  refine ⟨Exact.mat3_mul_invert_eq_init, Exact.mat3_invert_invert_eq, ?_,
          Exact.mat4_mul_invert_eq_init, Exact.mat4_invert_invert_eq⟩
  norm_num [Exact.mat3_invert_eval, Exact.mat3_decompose_eval, Exact.Mat3.init,
    Exact.Mat3.get, Exact.Mat3.set, Exact.Mat3.solveU, Exact.Mat3.solveL,
    Exact.Vec3.get, Exact.Vec3.set, Exact.Vec3.init]

/-- Witness for C2 at concrete well-conditioned diagonal matrices. -/
theorem c2_invert_inverse_witness :
    Exact.Mat3.pivots ⟨2, 0, 0, 0, 4, 0, 0, 0, 5⟩ ∧
    Exact.Mat3.mul ⟨2, 0, 0, 0, 4, 0, 0, 0, 5⟩
      (Exact.Mat3.invert ⟨2, 0, 0, 0, 4, 0, 0, 0, 5⟩) = Exact.Mat3.init ∧
    Exact.Mat3.invert (Exact.Mat3.invert ⟨2, 0, 0, 0, 4, 0, 0, 0, 5⟩) =
      ⟨2, 0, 0, 0, 4, 0, 0, 0, 5⟩ ∧
    Exact.Mat4.pivots ⟨2, 0, 0, 0, 0, 3, 0, 0, 0, 0, 4, 0, 0, 0, 0, 5⟩ ∧
    Exact.Mat4.mul ⟨2, 0, 0, 0, 0, 3, 0, 0, 0, 0, 4, 0, 0, 0, 0, 5⟩
      (Exact.Mat4.invert ⟨2, 0, 0, 0, 0, 3, 0, 0, 0, 0, 4, 0, 0, 0, 0, 5⟩) = Exact.Mat4.init ∧
    Exact.Mat4.invert (Exact.Mat4.invert ⟨2, 0, 0, 0, 0, 3, 0, 0, 0, 0, 4, 0, 0, 0, 0, 5⟩) =
      ⟨2, 0, 0, 0, 0, 3, 0, 0, 0, 0, 4, 0, 0, 0, 0, 5⟩ := by
  have h3 : Exact.Mat3.pivots ⟨2, 0, 0, 0, 4, 0, 0, 0, 5⟩ := by
    norm_num [Exact.Mat3.pivots, Exact.mat3_decompose_eval]
  have h3i : Exact.Mat3.pivots (Exact.Mat3.invert ⟨2, 0, 0, 0, 4, 0, 0, 0, 5⟩) := by
    norm_num [Exact.Mat3.pivots, Exact.mat3_invert_eval, Exact.mat3_decompose_eval,
      Exact.Mat3.init, Exact.Mat3.get, Exact.Mat3.set,
      Exact.Mat3.solveU, Exact.Mat3.solveL, Exact.Vec3.get, Exact.Vec3.set, Exact.Vec3.init]
  have h4 : Exact.Mat4.pivots ⟨2, 0, 0, 0, 0, 3, 0, 0, 0, 0, 4, 0, 0, 0, 0, 5⟩ := by
    norm_num [Exact.Mat4.pivots, Exact.mat4_decompose_eval]
  have h4i : Exact.Mat4.pivots
      (Exact.Mat4.invert ⟨2, 0, 0, 0, 0, 3, 0, 0, 0, 0, 4, 0, 0, 0, 0, 5⟩) := by
    norm_num [Exact.Mat4.pivots, Exact.mat4_invert_eval, Exact.mat4_decompose_eval,
      Exact.Mat4.init, Exact.Mat4.get, Exact.Mat4.set,
      Exact.Mat4.solveU, Exact.Mat4.solveL, Exact.Vec4.get, Exact.Vec4.set, Exact.Vec4.init]
  exact ⟨h3, c2_invert_inverse.1 _ h3, c2_invert_inverse.2.1 _ h3 h3i,
         h4, c2_invert_inverse.2.2.2.1 _ h4, c2_invert_inverse.2.2.2.2 _ h4 h4i⟩

/-- C3: for every decomposable matrix (all pivots nonzero), with `(L, U)`
the outputs of `decompose` applied with identity-initialized output
parameters (as `invert` uses them), `L * U` equals the input matrix
(exactly in the exact-arithmetic model, hence within floating tolerance). -/
theorem c3_lu_reconstruction :
    (∀ A : Exact.Mat3, A.pivots →
       Exact.Mat3.mul (A.decompose Exact.Mat3.init Exact.Mat3.init).1
         (A.decompose Exact.Mat3.init Exact.Mat3.init).2 = A) ∧
    (∀ A : Exact.Mat4, A.pivots →
       Exact.Mat4.mul (A.decompose Exact.Mat4.init Exact.Mat4.init).1
         (A.decompose Exact.Mat4.init Exact.Mat4.init).2 = A) :=
  ⟨Exact.mat3_mul_decompose_eq, Exact.mat4_mul_decompose_eq⟩

/-- Witness for C3 at concrete decomposable matrices. -/
theorem c3_lu_reconstruction_witness :
    Exact.Mat3.pivots ⟨4, 1, 0, 2, 5, 1, 0, 3, 6⟩ ∧
    Exact.Mat3.mul (Exact.Mat3.decompose ⟨4, 1, 0, 2, 5, 1, 0, 3, 6⟩
        Exact.Mat3.init Exact.Mat3.init).1
      (Exact.Mat3.decompose ⟨4, 1, 0, 2, 5, 1, 0, 3, 6⟩
        Exact.Mat3.init Exact.Mat3.init).2 = ⟨4, 1, 0, 2, 5, 1, 0, 3, 6⟩ ∧
    Exact.Mat4.pivots ⟨4, 1, 0, 0, 2, 5, 1, 0, 0, 3, 6, 1, 0, 0, 2, 7⟩ ∧
    Exact.Mat4.mul (Exact.Mat4.decompose ⟨4, 1, 0, 0, 2, 5, 1, 0, 0, 3, 6, 1, 0, 0, 2, 7⟩
        Exact.Mat4.init Exact.Mat4.init).1
      (Exact.Mat4.decompose ⟨4, 1, 0, 0, 2, 5, 1, 0, 0, 3, 6, 1, 0, 0, 2, 7⟩
        Exact.Mat4.init Exact.Mat4.init).2 = ⟨4, 1, 0, 0, 2, 5, 1, 0, 0, 3, 6, 1, 0, 0, 2, 7⟩ := by
  have h3 : Exact.Mat3.pivots ⟨4, 1, 0, 2, 5, 1, 0, 3, 6⟩ := by
    norm_num [Exact.Mat3.pivots, Exact.mat3_decompose_eval]
  have h4 : Exact.Mat4.pivots ⟨4, 1, 0, 0, 2, 5, 1, 0, 0, 3, 6, 1, 0, 0, 2, 7⟩ := by
    norm_num [Exact.Mat4.pivots, Exact.mat4_decompose_eval]
  exact ⟨h3, c3_lu_reconstruction.1 _ h3, h4, c3_lu_reconstruction.2 _ h4⟩

/-- C7 counterexample: a vector whose components are bit-identical to
themselves (the same NaN value in `x`) on which `operator==` nevertheless
returns `false` — refuting "returns true exactly when every pair of
corresponding components is bit-identical". -/
theorem c7_counterexample :
    Ieee.Vec3.beq ⟨Ieee.Fp.nan, Ieee.Fp.fin 0, Ieee.Fp.fin 0⟩
        ⟨Ieee.Fp.nan, Ieee.Fp.fin 0, Ieee.Fp.fin 0⟩ = false ∧
    (Ieee.Vec3.mk Ieee.Fp.nan (Ieee.Fp.fin 0) (Ieee.Fp.fin 0)).x =
        (Ieee.Vec3.mk Ieee.Fp.nan (Ieee.Fp.fin 0) (Ieee.Fp.fin 0)).x ∧
    (Ieee.Vec3.mk Ieee.Fp.nan (Ieee.Fp.fin 0) (Ieee.Fp.fin 0)).y =
        (Ieee.Vec3.mk Ieee.Fp.nan (Ieee.Fp.fin 0) (Ieee.Fp.fin 0)).y ∧
    (Ieee.Vec3.mk Ieee.Fp.nan (Ieee.Fp.fin 0) (Ieee.Fp.fin 0)).z =
        (Ieee.Vec3.mk Ieee.Fp.nan (Ieee.Fp.fin 0) (Ieee.Fp.fin 0)).z :=
  ⟨rfl, rfl, rfl, rfl⟩

/-- C7 (amended): `operator==` is exact per-component equality with no
epsilon tolerance, but follows IEEE comparison rather than bit-identity:
a vector containing NaN compares unequal even to itself; on NaN-free
values (and in the exact model for matrices and vectors) it returns true
exactly when the values are component-wise identical. -/
theorem c7_exact_equality :
    (∀ v w : Ieee.Vec3, Ieee.Vec3.beq v w = true ↔ (v.noNaN ∧ w.noNaN ∧ v = w)) ∧
    (∀ a b : Exact.Vec3, Exact.Vec3.beq a b = true ↔ a = b) ∧
    (∀ a b : Exact.Vec4, Exact.Vec4.beq a b = true ↔ a = b) ∧
    (∀ a b : Exact.Mat3, Exact.Mat3.beq a b = true ↔ a = b) ∧
    (∀ a b : Exact.Mat4, Exact.Mat4.beq a b = true ↔ a = b) :=
  ⟨Ieee.vec3_beq_true_iff, Exact.vec3_beq_iff, Exact.vec4_beq_iff,
   Exact.mat3_beq_iff, Exact.mat4_beq_iff⟩

/-- C9: the header `Vec3` returns NaN from `get` for every index outside
`0..2` and silently leaves the vector unchanged on `set` with such an
index, while the `Vec4.cpp` reference implementation instead asserts
(modelled as `none`) on any index outside `0..3`. -/
theorem c9_out_of_range_access :
    (∀ (v : Ieee.Vec3) (i : Int), (i < 0 ∨ 2 < i) → Ieee.Vec3.get v i = Ieee.Fp.nan) ∧
    (∀ (v : Ieee.Vec3) (i : Int) (value : Ieee.Fp), (i < 0 ∨ 2 < i) →
       Ieee.Vec3.set v i value = v) ∧
    (∀ (v : Ieee.Vec4) (i : Int), (i < 0 ∨ 3 < i) → Ieee.Vec4.get v i = none) ∧
    (∀ (v : Ieee.Vec4) (i : Int) (value : Ieee.Fp), (i < 0 ∨ 3 < i) →
       Ieee.Vec4.set v i value = none) := by
  refine ⟨fun v i h => ?_, fun v i value h => ?_, fun v i h => ?_, fun v i value h => ?_⟩
  · rcases h with h | h <;>
    · unfold Ieee.Vec3.get
      split <;> first | rfl | (exfalso; omega)
  · rcases h with h | h <;>
    · unfold Ieee.Vec3.set
      split <;> first | rfl | (exfalso; omega)
  · rcases h with h | h <;>
    · unfold Ieee.Vec4.get
      split <;> first | rfl | (exfalso; omega)
  · rcases h with h | h <;>
    · unfold Ieee.Vec4.set
      split <;> first | rfl | (exfalso; omega)

/-- Witness for C9 at concrete out-of-range indices. -/
theorem c9_out_of_range_access_witness :
    Ieee.Vec3.get ⟨Ieee.Fp.fin 1, Ieee.Fp.fin 2, Ieee.Fp.fin 3⟩ 5 = Ieee.Fp.nan ∧
    Ieee.Vec3.set ⟨Ieee.Fp.fin 1, Ieee.Fp.fin 2, Ieee.Fp.fin 3⟩ (-1) (Ieee.Fp.fin 7) =
      ⟨Ieee.Fp.fin 1, Ieee.Fp.fin 2, Ieee.Fp.fin 3⟩ ∧
    Ieee.Vec4.get ⟨Ieee.Fp.fin 1, Ieee.Fp.fin 2, Ieee.Fp.fin 3, Ieee.Fp.fin 4⟩ 4 = none ∧
    Ieee.Vec4.set ⟨Ieee.Fp.fin 1, Ieee.Fp.fin 2, Ieee.Fp.fin 3, Ieee.Fp.fin 4⟩ (-2)
      (Ieee.Fp.fin 7) = none :=
  ⟨c9_out_of_range_access.1 _ 5 (Or.inr (by norm_num)),
   c9_out_of_range_access.2.1 _ (-1) _ (Or.inl (by norm_num)),
   c9_out_of_range_access.2.2.1 _ 4 (Or.inr (by norm_num)),
   c9_out_of_range_access.2.2.2 _ (-2) _ (Or.inl (by norm_num))⟩
